import Mathlib

/-!
Verification of the point-of-sale back office's Sale & Inventory Consistency
Engine: a shallow embedding of `core/models.py`, `core/serializers.py` and
`core/views.py`. Monetary amounts are modelled as exact rationals (the source
uses Python `Decimal`, which is exact on all in-range inputs here), stock
quantities as integers, and the relational store as lists of rows. Each
endpoint is a function from a store and a request to the resulting store
paired with either the created aggregate or the error the endpoint returns.
-/

namespace POS

/-- Rounding to an integer with ties to even, the ROUND_HALF_EVEN mode that
Python `Decimal.quantize` applies by default in the source's
`total.quantize(Decimal(0.01))` calls. -/
def roundHalfEven (q : ℚ) : ℤ :=
  let f := Int.floor q
  let r := q - f
  if r < 1/2 then f
  else if 1/2 < r then f + 1
  else if f % 2 = 0 then f else f + 1

/-- Quantization to 2 decimal places, the source's `.quantize(Decimal(0.01))`. -/
def round2 (q : ℚ) : ℚ := (roundHalfEven (q * 100) : ℚ) / 100

/-- Payment methods accepted by `SaleCreateSerializer.payment_method`. -/
inductive PaymentMethod
  | cash
  | card
  | mobile
  deriving DecidableEq, Repr

/-- Sale statuses, `Sale.STATUS_CHOICES` in `core/models.py`. -/
inductive SaleStatus
  | pending
  | completed
  | cancelled
  deriving DecidableEq, Repr

/-- Purchase-order statuses, `PurchaseOrder.STATUS_CHOICES` in `core/models.py`. -/
inductive POStatus
  | draft
  | pending
  | received
  | cancelled
  deriving DecidableEq, Repr

/-- Stock movement types, `StockMovement.MOVEMENT_TYPE_CHOICES`.
The source's `return` choice is spelled `stockReturn` (keyword clash). -/
inductive MovementType
  | purchase
  | sale
  | adjustment
  | stockReturn
  | damage
  deriving DecidableEq, Repr

/-- Adjustment types of `StockAdjustmentSerializer.adjustment_type`. -/
inductive AdjustmentType
  | add
  | remove
  | set
  deriving DecidableEq, Repr

/-- A `Product` row (`core/models.py`), restricted to the fields the engine
reads or writes. -/
structure Product where
  id : ℕ
  name : String
  sku : String
  price : ℚ
  cost_price : ℚ
  tax_rate : ℚ
  stock_quantity : ℤ
  min_stock_level : ℤ
  deriving DecidableEq, Repr

/-- A `Sale` row (`core/models.py`). -/
structure Sale where
  id : ℕ
  customer_name : String
  subtotal : ℚ
  tax_amount : ℚ
  discount_amount : ℚ
  total : ℚ
  payment_method : PaymentMethod
  amount_paid : ℚ
  change_amount : ℚ
  status : SaleStatus
  notes : String
  deriving DecidableEq, Repr

/-- A `SaleItem` row (`core/models.py`), the frozen product snapshot. -/
structure SaleItem where
  sale : ℕ
  product : ℕ
  product_name : String
  product_sku : String
  quantity : ℕ
  unit_price : ℚ
  tax_rate : ℚ
  discount_percent : ℚ
  subtotal : ℚ
  deriving DecidableEq, Repr

/-- A `Payment` row (`core/models.py`). -/
structure Payment where
  sale : ℕ
  payment_method : PaymentMethod
  amount : ℚ
  deriving DecidableEq, Repr

/-- A `StockMovement` row (`core/models.py`). -/
structure StockMovement where
  product : ℕ
  movement_type : MovementType
  quantity : ℤ
  previous_quantity : ℤ
  new_quantity : ℤ
  unit_cost : Option ℚ
  reference_number : String
  supplier : Option ℕ
  sale : Option ℕ
  notes : String
  deriving DecidableEq, Repr

/-- A `StockAlert` row (`core/models.py`). -/
structure StockAlert where
  id : ℕ
  product : ℕ
  alert_level : ℤ
  current_stock : ℤ
  is_resolved : Bool
  deriving DecidableEq, Repr

/-- A `PurchaseOrder` row (`core/models.py`). The generated `po_number` string
is carried opaquely; its date/uuid generation is not modelled. -/
structure PurchaseOrder where
  id : ℕ
  po_number : String
  supplier : ℕ
  status : POStatus
  subtotal : ℚ
  tax_amount : ℚ
  total : ℚ
  notes : String
  deriving DecidableEq, Repr

/-- A `PurchaseOrderItem` row (`core/models.py`). -/
structure PurchaseOrderItem where
  id : ℕ
  purchase_order : ℕ
  product : ℕ
  quantity_ordered : ℕ
  quantity_received : ℕ
  unit_cost : ℚ
  subtotal : ℚ
  deriving DecidableEq, Repr

/-- The relational store: one list of rows per table the engine touches.
Suppliers are carried as ids only (the engine reads nothing else of them). -/
structure Store where
  products : List Product
  sales : List Sale
  saleItems : List SaleItem
  payments : List Payment
  movements : List StockMovement
  alerts : List StockAlert
  purchaseOrders : List PurchaseOrder
  poItems : List PurchaseOrderItem
  suppliers : List ℕ
  deriving DecidableEq, Repr

/-- Primary-key lookup, Django's `Model.objects.get(pk=k)` (first row whose
key matches). -/
def findBy (key : α → ℕ) (rows : List α) (k : ℕ) : Option α :=
  rows.find? (fun r => key r == k)

/-- Writing a row back, Django's `instance.save()`: every row whose key
matches the instance's key is replaced by the instance. -/
def saveBy (key : α → ℕ) (rows : List α) (x : α) : List α :=
  rows.map (fun r => if key r == key x then x else r)

def findProduct (s : Store) (pid : ℕ) : Option Product :=
  findBy Product.id s.products pid

def findSale (s : Store) (sid : ℕ) : Option Sale :=
  findBy Sale.id s.sales sid

def findPO (s : Store) (poid : ℕ) : Option PurchaseOrder :=
  findBy PurchaseOrder.id s.purchaseOrders poid

/-- The `sale.items.all()` query set: items of one sale. -/
def itemsOfSale (s : Store) (sid : ℕ) : List SaleItem :=
  s.saleItems.filter (fun i => i.sale == sid)

/-- The `po.items.all()` query set: items of one purchase order. -/
def itemsOfPO (s : Store) (poid : ℕ) : List PurchaseOrderItem :=
  s.poItems.filter (fun i => i.purchase_order == poid)

/-- The derived `SaleItem.subtotal`, computed by `SaleItem.save` in
`core/models.py`: discount- and tax-inclusive. -/
def saleItemSubtotal (unit_price : ℚ) (quantity : ℕ) (discount_percent tax_rate : ℚ) : ℚ :=
  let base_amount := unit_price * (quantity : ℚ)
  let discount := base_amount * (discount_percent / 100)
  let tax := (base_amount - discount) * (tax_rate / 100)
  base_amount - discount + tax

/-- One requested sale line, `SaleItemCreateSerializer`. -/
structure SaleItemRequest where
  product_id : ℕ
  quantity : ℕ
  discount_percent : ℚ
  deriving DecidableEq, Repr

/-- A sale request, `SaleCreateSerializer`. -/
structure SaleRequest where
  customer_name : String
  items : List SaleItemRequest
  payment_method : PaymentMethod
  amount_paid : ℚ
  notes : String
  deriving DecidableEq, Repr

/-- Errors raised by `SaleCreateSerializer.validate_items` and `validate`. -/
inductive SaleError
  | emptyItems
  | productNotFound (pid : ℕ)
  | insufficientStock (pid : ℕ)
  | insufficientPayment
  deriving DecidableEq, Repr

/-- The `attrs[_calculated]` dictionary stored by `SaleCreateSerializer.validate`. -/
structure Calculated where
  subtotal : ℚ
  tax_amount : ℚ
  discount_amount : ℚ
  total : ℚ
  change_amount : ℚ
  deriving DecidableEq, Repr

/-- The per-item loop of `SaleCreateSerializer.validate` (serializers.py
263-291): looks each product up, checks stock, and accumulates the raw
subtotal, discount and tax sums. -/
def validateItems (s : Store) :
    List SaleItemRequest → ℚ → ℚ → ℚ → Except SaleError (ℚ × ℚ × ℚ)
  | [], subtotal, discount_amount, tax_amount => .ok (subtotal, discount_amount, tax_amount)
  | it :: rest, subtotal, discount_amount, tax_amount =>
    match findProduct s it.product_id with
    | none => .error (.productNotFound it.product_id)
    | some p =>
      if p.stock_quantity < (it.quantity : ℤ) then
        .error (.insufficientStock it.product_id)
      else
        let item_subtotal := p.price * (it.quantity : ℚ)
        let item_discount := item_subtotal * (it.discount_percent / 100)
        let item_after_discount := item_subtotal - item_discount
        let item_tax := item_after_discount * (p.tax_rate / 100)
        validateItems s rest (subtotal + item_subtotal)
          (discount_amount + item_discount) (tax_amount + item_tax)

/-- `SaleCreateSerializer.validate_items` plus `validate` (serializers.py
251-315): the non-empty check, the per-item loop, the aggregate-level
2-decimal rounding of the total, and the payment check. -/
def validateSale (s : Store) (r : SaleRequest) : Except SaleError Calculated :=
  if r.items.isEmpty then .error .emptyItems
  else
    match validateItems s r.items 0 0 0 with
    | .error e => .error e
    | .ok (subtotal, discount_amount, tax_amount) =>
      let total := round2 (subtotal - discount_amount + tax_amount)
      if r.amount_paid < total then .error .insufficientPayment
      else
        .ok { subtotal := round2 subtotal
              tax_amount := round2 tax_amount
              discount_amount := round2 discount_amount
              total := total
              change_amount := round2 (r.amount_paid - total) }

/-- One iteration of the item loop in `SaleCreateSerializer.create`
(serializers.py 340-368): re-read the product, create the `SaleItem`
snapshot (its subtotal computed by `SaleItem.save`), decrement stock, and
append the `StockMovement`. The `none` branch cannot occur after a
successful `validate`. -/
def saleOneItem (saleId : ℕ) (s : Store) (it : SaleItemRequest) : Store :=
  match findProduct s it.product_id with
  | none => s
  | some p =>
    let item : SaleItem :=
      { sale := saleId
        product := p.id
        product_name := p.name
        product_sku := p.sku
        quantity := it.quantity
        unit_price := p.price
        tax_rate := p.tax_rate
        discount_percent := it.discount_percent
        subtotal := saleItemSubtotal p.price it.quantity it.discount_percent p.tax_rate }
    let newStock := p.stock_quantity - (it.quantity : ℤ)
    let movement : StockMovement :=
      { product := p.id
        movement_type := .sale
        quantity := -(it.quantity : ℤ)
        previous_quantity := newStock + (it.quantity : ℤ)
        new_quantity := newStock
        unit_cost := none
        reference_number := ""
        supplier := none
        sale := some saleId
        notes := "" }
    { s with
        products := saveBy Product.id s.products { p with stock_quantity := newStock }
        saleItems := s.saleItems ++ [item]
        movements := s.movements ++ [movement] }

/-- The full item loop of `SaleCreateSerializer.create`. -/
def createSaleItems (saleId : ℕ) : Store → List SaleItemRequest → Store
  | s, [] => s
  | s, it :: rest => createSaleItems saleId (saleOneItem saleId s it) rest

/-- `SaleCreateSerializer` end to end (serializers.py 240-377): field and
cross-field validation followed by `create`, which persists the `Sale`, its
items with stock decrements and ledger entries, and one `Payment`. A
validation error leaves the store untouched (validation performs no write). -/
def createSale (s : Store) (r : SaleRequest) : Store × Except SaleError Sale :=
  match validateSale s r with
  | .error e => (s, .error e)
  | .ok c =>
    let sale : Sale :=
      { id := s.sales.length
        customer_name := r.customer_name
        subtotal := c.subtotal
        tax_amount := c.tax_amount
        discount_amount := c.discount_amount
        total := c.total
        payment_method := r.payment_method
        amount_paid := r.amount_paid
        change_amount := c.change_amount
        status := .completed
        notes := r.notes }
    let s1 : Store := { s with sales := s.sales ++ [sale] }
    let s2 := createSaleItems sale.id s1 r.items
    let s3 : Store :=
      { s2 with
          payments := s2.payments ++
            [{ sale := sale.id, payment_method := r.payment_method, amount := r.amount_paid }] }
    (s3, .ok sale)

/-- A manual stock adjustment request, `StockAdjustmentSerializer`. -/
structure AdjustmentRequest where
  product_id : ℕ
  adjustment_type : AdjustmentType
  quantity : ℕ
  reason : String
  reference_number : String
  deriving DecidableEq, Repr

/-- Errors raised by `StockAdjustmentSerializer.validate`. -/
inductive AdjustError
  | productNotFound (pid : ℕ)
  | insufficientStock
  deriving DecidableEq, Repr

/-- Whether the product has an unresolved alert, the lookup half of the
`StockAlert.objects.get_or_create(product=..., is_resolved=False)` call. -/
def hasOpenAlert (s : Store) (pid : ℕ) : Bool :=
  s.alerts.any (fun a => a.product == pid && !a.is_resolved)

/-- The `get_or_create` call of `StockAdjustmentView.post` (views.py
628-636): reuse the open alert when one exists, otherwise append a new open
alert with the product's minimum level and the new stock. -/
def ensureAlert (s : Store) (pid : ℕ) (alert_level current_stock : ℤ) : Store :=
  if hasOpenAlert s pid then s
  else
    { s with
        alerts := s.alerts ++
          [{ id := s.alerts.length
             product := pid
             alert_level := alert_level
             current_stock := current_stock
             is_resolved := false }] }

/-- The new stock computed by `StockAdjustmentView.post` (views.py 600-609)
from the adjustment type, the previous stock and the requested quantity. -/
def adjNewQuantity (t : AdjustmentType) (previous : ℤ) (q : ℕ) : ℤ :=
  match t with
  | .add => previous + (q : ℤ)
  | .remove => previous - (q : ℤ)
  | .set => (q : ℤ)

/-- The signed movement delta computed by `StockAdjustmentView.post`
(views.py 600-609). -/
def adjMovementQuantity (t : AdjustmentType) (previous : ℤ) (q : ℕ) : ℤ :=
  match t with
  | .add => (q : ℤ)
  | .remove => -(q : ℤ)
  | .set => (q : ℤ) - previous

/-- The `StockMovement` row appended by `StockAdjustmentView.post`
(views.py 616-625). -/
def adjMovement (r : AdjustmentRequest) (p : Product) : StockMovement :=
  { product := p.id
    movement_type := .adjustment
    quantity := adjMovementQuantity r.adjustment_type p.stock_quantity r.quantity
    previous_quantity := p.stock_quantity
    new_quantity := adjNewQuantity r.adjustment_type p.stock_quantity r.quantity
    unit_cost := none
    reference_number := r.reference_number
    supplier := none
    sale := none
    notes := r.reason }

/-- `StockAdjustmentSerializer.validate` plus `StockAdjustmentView.post`
(serializers.py 417-432, views.py 586-641): resolve the product, reject an
over-large removal, write the new stock, append the `adjustment` movement,
and open a low-stock alert when the new stock is at or below the minimum. -/
def stockAdjust (s : Store) (r : AdjustmentRequest) : Store × Except AdjustError StockMovement :=
  match findProduct s r.product_id with
  | none => (s, .error (.productNotFound r.product_id))
  | some p =>
    if r.adjustment_type = .remove ∧ p.stock_quantity < (r.quantity : ℤ) then
      (s, .error .insufficientStock)
    else
      let movement := adjMovement r p
      let s1 : Store :=
        { s with
            products := saveBy Product.id s.products
              { p with stock_quantity := movement.new_quantity }
            movements := s.movements ++ [movement] }
      let s2 :=
        if movement.new_quantity ≤ p.min_stock_level then
          ensureAlert s1 p.id p.min_stock_level movement.new_quantity
        else s1
      (s2, .ok movement)

/-- Errors returned by the purchase-order endpoints. -/
inductive POError
  | notFound
  | conflict
  | emptyItems
  | supplierNotFound (sid : ℕ)
  deriving DecidableEq, Repr

/-- Setting every unresolved alert of one product to resolved, the
`StockAlert.objects.filter(product=..., is_resolved=False).update(...)` call
of `receive_purchase_order` (views.py 730-736). -/
def resolveAlertsFor (alerts : List StockAlert) (pid : ℕ) : List StockAlert :=
  alerts.map (fun a =>
    if a.product == pid && !a.is_resolved then { a with is_resolved := true } else a)

/-- One iteration of the item loop in `receive_purchase_order` (views.py
702-736): add the ordered quantity to the product's stock, mark the item
received, append the `purchase` movement, and resolve the product's open
alerts. The `none` branch cannot occur under foreign-key integrity. -/
def receiveOneItem (po : PurchaseOrder) (s : Store) (item : PurchaseOrderItem) : Store :=
  match findProduct s item.product with
  | none => s
  | some product =>
    let previous_quantity := product.stock_quantity
    let new_quantity := previous_quantity + (item.quantity_ordered : ℤ)
    let movement : StockMovement :=
      { product := product.id
        movement_type := .purchase
        quantity := (item.quantity_ordered : ℤ)
        previous_quantity := previous_quantity
        new_quantity := new_quantity
        unit_cost := some item.unit_cost
        reference_number := po.po_number
        supplier := some po.supplier
        sale := none
        notes := "" }
    { s with
        products := saveBy Product.id s.products { product with stock_quantity := new_quantity }
        poItems := saveBy PurchaseOrderItem.id s.poItems
          { item with quantity_received := item.quantity_ordered }
        movements := s.movements ++ [movement]
        alerts := resolveAlertsFor s.alerts product.id }

/-- The full item loop of `receive_purchase_order`; the query set is
evaluated once before the loop, so the iterated list is fixed. -/
def receiveItems (po : PurchaseOrder) : Store → List PurchaseOrderItem → Store
  | s, [] => s
  | s, item :: rest => receiveItems po (receiveOneItem po s item) rest

/-- `receive_purchase_order` (views.py 682-746): 404 on an unknown id,
conflict when the status is already `received`, otherwise the item loop
followed by the status change. -/
def receivePO (s : Store) (poid : ℕ) : Store × Except POError PurchaseOrder :=
  match findPO s poid with
  | none => (s, .error .notFound)
  | some po =>
    if po.status = .received then (s, .error .conflict)
    else
      let s1 := receiveItems po s (itemsOfPO s poid)
      let po2 := { po with status := POStatus.received }
      ({ s1 with purchaseOrders := saveBy PurchaseOrder.id s1.purchaseOrders po2 }, .ok po2)

/-- `cancel_purchase_order` (views.py 749-773): 404 on an unknown id,
conflict when the status is `received`, otherwise set the status to
`cancelled` with no stock effect. -/
def cancelPO (s : Store) (poid : ℕ) : Store × Except POError PurchaseOrder :=
  match findPO s poid with
  | none => (s, .error .notFound)
  | some po =>
    if po.status = .received then (s, .error .conflict)
    else
      let po2 := { po with status := POStatus.cancelled }
      ({ s with purchaseOrders := saveBy PurchaseOrder.id s.purchaseOrders po2 }, .ok po2)

/-- Errors returned by `cancel_sale_view`. -/
inductive CancelSaleError
  | notFound
  | conflict
  deriving DecidableEq, Repr

/-- One iteration of the stock-restoring loop of `cancel_sale_view` (views.py
526-529). The `none` branch cannot occur under foreign-key integrity. -/
def restoreOneItem (s : Store) (item : SaleItem) : Store :=
  match findProduct s item.product with
  | none => s
  | some p =>
    { s with
        products := saveBy Product.id s.products
          { p with stock_quantity := p.stock_quantity + (item.quantity : ℤ) } }

/-- The full stock-restoring loop of `cancel_sale_view`. -/
def restoreItems : Store → List SaleItem → Store
  | s, [] => s
  | s, item :: rest => restoreItems (restoreOneItem s item) rest

/-- `cancel_sale_view` (views.py 504-538): 404 on an unknown id, conflict
when the sale is already cancelled, otherwise restore every item's quantity
to its product's stock and set the status to `cancelled`. No compensating
`StockMovement` is written. -/
def cancelSale (s : Store) (sid : ℕ) : Store × Except CancelSaleError Sale :=
  match findSale s sid with
  | none => (s, .error .notFound)
  | some sale =>
    if sale.status = .cancelled then (s, .error .conflict)
    else
      let s1 := restoreItems s (itemsOfSale s sid)
      let sale2 := { sale with status := SaleStatus.cancelled }
      ({ s1 with sales := saveBy Sale.id s1.sales sale2 }, .ok sale2)

/-- One requested purchase-order line as accepted by
`PurchaseOrderCreateSerializer.validate_items`. -/
structure POItemRequest where
  product_id : ℕ
  quantity : ℕ
  unit_cost : ℚ
  deriving DecidableEq, Repr

/-- A purchase-order creation request, `PurchaseOrderCreateSerializer`. -/
structure PORequest where
  supplier_id : ℕ
  items : List POItemRequest
  notes : String
  deriving DecidableEq, Repr

/-- The item loop of `PurchaseOrderCreateSerializer.create` (serializers.py
527-539): create one `PurchaseOrderItem` per input line (its subtotal
computed by `PurchaseOrderItem.save`) and accumulate the order subtotal.
The `none` branch cannot occur when every referenced product exists (the
source would raise and roll the transaction back). -/
def createPOItems (poid : ℕ) : Store → ℚ → List POItemRequest → Store × ℚ
  | s, subtotal, [] => (s, subtotal)
  | s, subtotal, it :: rest =>
    match findProduct s it.product_id with
    | none => createPOItems poid s subtotal rest
    | some p =>
      let item : PurchaseOrderItem :=
        { id := s.poItems.length
          purchase_order := poid
          product := p.id
          quantity_ordered := it.quantity
          quantity_received := 0
          unit_cost := it.unit_cost
          subtotal := it.unit_cost * (it.quantity : ℚ) }
      createPOItems poid { s with poItems := s.poItems ++ [item] }
        (subtotal + it.unit_cost * (it.quantity : ℚ)) rest

/-- `PurchaseOrderCreateSerializer` end to end (serializers.py 483-547):
supplier and non-empty-items validation, then `create`, which persists the
pending order, its items, and the subtotal, the 16 percent tax and the
total. -/
def createPO (s : Store) (r : PORequest) : Store × Except POError PurchaseOrder :=
  if r.supplier_id ∈ s.suppliers then
    if r.items.isEmpty then (s, .error .emptyItems)
    else
      let poid := s.purchaseOrders.length
      let po0 : PurchaseOrder :=
        { id := poid
          po_number := ""
          supplier := r.supplier_id
          status := .pending
          subtotal := 0
          tax_amount := 0
          total := 0
          notes := r.notes }
      let s1 : Store := { s with purchaseOrders := s.purchaseOrders ++ [po0] }
      let res := createPOItems poid s1 0 r.items
      let subtotal := res.2
      let po2 : PurchaseOrder :=
        { po0 with
            subtotal := subtotal
            tax_amount := subtotal * (16 / 100)
            total := subtotal + subtotal * (16 / 100) }
      ({ res.1 with purchaseOrders := saveBy PurchaseOrder.id res.1.purchaseOrders po2 }, .ok po2)
  else (s, .error (.supplierNotFound r.supplier_id))

/-- Spec-side aggregate, following the claim wording: the sum over items of
unit_price times quantity (a missing product contributes nothing; the
engine rejects such requests before computing anything). -/
def specRawSubtotal (s : Store) (l : List SaleItemRequest) : ℚ :=
  (l.map (fun it =>
    match findProduct s it.product_id with
    | none => 0
    | some p => p.price * (it.quantity : ℚ))).sum

/-- Spec-side aggregate, following the claim wording: the sum of the per-item
discounts. -/
def specRawDiscount (s : Store) (l : List SaleItemRequest) : ℚ :=
  (l.map (fun it =>
    match findProduct s it.product_id with
    | none => 0
    | some p => p.price * (it.quantity : ℚ) * (it.discount_percent / 100))).sum

/-- Spec-side aggregate, following the claim wording: the sum of the per-item
taxes, each computed on the discounted amount. -/
def specRawTax (s : Store) (l : List SaleItemRequest) : ℚ :=
  (l.map (fun it =>
    match findProduct s it.product_id with
    | none => 0
    | some p =>
      (p.price * (it.quantity : ℚ) - p.price * (it.quantity : ℚ) * (it.discount_percent / 100)) *
        (p.tax_rate / 100))).sum

/-- The ledger invariant of the spec's data model: the signed movement delta
equals the difference of the stock snapshots. -/
def movInv (m : StockMovement) : Prop :=
  m.new_quantity - m.previous_quantity = m.quantity

/-- The number of unresolved alerts of one product. -/
def countOpen (s : Store) (pid : ℕ) : ℕ :=
  (s.alerts.filter (fun a => a.product == pid && !a.is_resolved)).length

/-- The stock of one product, when it exists. -/
def stockOf (s : Store) (pid : ℕ) : Option ℤ :=
  (findProduct s pid).map Product.stock_quantity

/-! Concrete rows used to exercise the operations. -/

/-- A catalogue product used by the concrete examples. -/
def exProduct : Product :=
  { id := 1
    name := "Widget"
    sku := "WID1"
    price := 100
    cost_price := 60
    tax_rate := 0
    stock_quantity := 10
    min_stock_level := 2 }

/-- A one-product store used by the concrete examples. -/
def exStore : Store :=
  { products := [exProduct]
    sales := []
    saleItems := []
    payments := []
    movements := []
    alerts := []
    purchaseOrders := []
    poItems := []
    suppliers := [1] }

/-- A sale request for two units of the example product, paid 250 cash. -/
def exSaleReq : SaleRequest :=
  { customer_name := ""
    items := [{ product_id := 1, quantity := 2, discount_percent := 0 }]
    payment_method := .cash
    amount_paid := 250
    notes := "" }

/-- The sale the engine persists for `exSaleReq` against `exStore`. -/
def exSale : Sale :=
  { id := 0
    customer_name := ""
    subtotal := 200
    tax_amount := 0
    discount_amount := 0
    total := 200
    payment_method := .cash
    amount_paid := 250
    change_amount := 50
    status := .completed
    notes := "" }

/-- An adjustment request adding three units of the example product. -/
def exAdjReq : AdjustmentRequest :=
  { product_id := 1
    adjustment_type := .add
    quantity := 3
    reason := "recount"
    reference_number := "" }

/-- The movement the engine appends for `exAdjReq` against `exStore`. -/
def exAdjMovement : StockMovement :=
  { product := 1
    movement_type := .adjustment
    quantity := 3
    previous_quantity := 10
    new_quantity := 13
    unit_cost := none
    reference_number := ""
    supplier := none
    sale := none
    notes := "recount" }

/-- The total ordered quantity a list of purchase-order items carries for one
product, the claim-side sum for purchase-order receiving. -/
def orderedSum (l : List PurchaseOrderItem) (pid : ℕ) : ℤ :=
  ((l.filter (fun i => i.product == pid)).map (fun i => (i.quantity_ordered : ℤ))).sum

/-- The restored quantity a list of sale items carries for one product, the
claim-side sum for sale cancellation. -/
def restoredSum (l : List SaleItem) (pid : ℕ) : ℤ :=
  ((l.filter (fun i => i.product == pid)).map (fun i => (i.quantity : ℤ))).sum

/-- Every alert of one product is resolved in the store. -/
def allResolved (s : Store) (pid : ℕ) : Prop :=
  ∀ a ∈ s.alerts, a.product = pid → a.is_resolved = true

/-- A pending purchase order over the example supplier. -/
def exPO : PurchaseOrder :=
  { id := 1
    po_number := "PO-20250101-ABC123"
    supplier := 1
    status := .pending
    subtotal := 50
    tax_amount := 8
    total := 58
    notes := "" }

/-- An item of `exPO`: ten units of the example product at cost 5. -/
def exPOItem : PurchaseOrderItem :=
  { id := 1
    purchase_order := 1
    product := 1
    quantity_ordered := 10
    quantity_received := 0
    unit_cost := 5
    subtotal := 50 }

/-- The example store extended with the pending purchase order. -/
def exPOStore : Store :=
  { products := [exProduct]
    sales := []
    saleItems := []
    payments := []
    movements := []
    alerts := []
    purchaseOrders := [exPO]
    poItems := [exPOItem]
    suppliers := [1] }

/-- The same purchase order, already cancelled. -/
def exPOCancelled : PurchaseOrder :=
  { id := 1
    po_number := "PO-20250101-ABC123"
    supplier := 1
    status := .cancelled
    subtotal := 50
    tax_amount := 8
    total := 58
    notes := "" }

/-- The example store holding the cancelled purchase order. -/
def exPOStoreCancelled : Store :=
  { products := [exProduct]
    sales := []
    saleItems := []
    payments := []
    movements := []
    alerts := []
    purchaseOrders := [exPOCancelled]
    poItems := [exPOItem]
    suppliers := [1] }

/-- A product sitting below its minimum stock level. -/
def exLowProduct : Product :=
  { id := 1
    name := "Widget"
    sku := "WID1"
    price := 100
    cost_price := 60
    tax_rate := 0
    stock_quantity := 2
    min_stock_level := 10 }

/-- An open low-stock alert for the low-stock product. -/
def exOpenAlert : StockAlert :=
  { id := 0
    product := 1
    alert_level := 10
    current_stock := 2
    is_resolved := false }

/-- A store holding the low-stock product and its open alert. -/
def exAlertStore : Store :=
  { products := [exLowProduct]
    sales := []
    saleItems := []
    payments := []
    movements := []
    alerts := [exOpenAlert]
    purchaseOrders := []
    poItems := []
    suppliers := [1] }

/-- An adjustment restocking the low-stock product far above its minimum. -/
def exAddBigReq : AdjustmentRequest :=
  { product_id := 1
    adjustment_type := .add
    quantity := 100
    reason := "restock"
    reference_number := "" }

/-- A completed sale row for the cancellation example. -/
def exSaleRow : Sale :=
  { id := 0
    customer_name := ""
    subtotal := 200
    tax_amount := 0
    discount_amount := 0
    total := 200
    payment_method := .cash
    amount_paid := 250
    change_amount := 50
    status := .completed
    notes := "" }

/-- The sale item of `exSaleRow`: two units of the example product. -/
def exSaleItemRow : SaleItem :=
  { sale := 0
    product := 1
    product_name := "Widget"
    product_sku := "WID1"
    quantity := 2
    unit_price := 100
    tax_rate := 0
    discount_percent := 0
    subtotal := 200 }

/-- A store holding the completed sale to cancel. -/
def exCancelStore : Store :=
  { products := [exProduct]
    sales := [exSaleRow]
    saleItems := [exSaleItemRow]
    payments := []
    movements := []
    alerts := []
    purchaseOrders := []
    poItems := []
    suppliers := [1] }

/-- A product with stock 5 and minimum 10, the spec's adjustment scenario. -/
def exFiveProduct : Product :=
  { id := 1
    name := "Widget"
    sku := "WID1"
    price := 100
    cost_price := 60
    tax_rate := 0
    stock_quantity := 5
    min_stock_level := 10 }

/-- A store holding the stock-5 product and no alerts. -/
def exFiveStore : Store :=
  { products := [exFiveProduct]
    sales := []
    saleItems := []
    payments := []
    movements := []
    alerts := []
    purchaseOrders := []
    poItems := []
    suppliers := [1] }

/-- The spec scenario's adjustment: remove 3 units. -/
def exRemoveReq : AdjustmentRequest :=
  { product_id := 1
    adjustment_type := .remove
    quantity := 3
    reason := "damage"
    reference_number := "" }

/-- A purchase-order creation request: ten units at unit cost 5. -/
def exPOCreateReq : PORequest :=
  { supplier_id := 1
    items := [{ product_id := 1, quantity := 10, unit_cost := 5 }]
    notes := "" }

/-- A product taxed at 16 percent. -/
def exTaxProduct : Product :=
  { id := 1
    name := "Widget"
    sku := "WID1"
    price := 100
    cost_price := 60
    tax_rate := 16
    stock_quantity := 10
    min_stock_level := 2 }

/-- A store holding the taxed product. -/
def exTaxStore : Store :=
  { products := [exTaxProduct]
    sales := []
    saleItems := []
    payments := []
    movements := []
    alerts := []
    purchaseOrders := []
    poItems := []
    suppliers := [1] }

/-- A sale request for one unit of the taxed product. -/
def exTaxReq : SaleRequest :=
  { customer_name := ""
    items := [{ product_id := 1, quantity := 1, discount_percent := 0 }]
    payment_method := .cash
    amount_paid := 200
    notes := "" }

/-- The sale the engine persists for `exTaxReq`: its subtotal field is the
pre-tax 100 while the single item's stored subtotal is tax-inclusive 116. -/
def exTaxSale : Sale :=
  { id := 0
    customer_name := ""
    subtotal := 100
    tax_amount := 16
    discount_amount := 0
    total := 116
    payment_method := .cash
    amount_paid := 200
    change_amount := 84
    status := .completed
    notes := "" }

/-- The sale item persisted for `exTaxReq`, with tax-inclusive subtotal. -/
def exTaxItem : SaleItem :=
  { sale := 0
    product := 1
    product_name := "Widget"
    product_sku := "WID1"
    quantity := 1
    unit_price := 100
    tax_rate := 16
    discount_percent := 0
    subtotal := 116 }

/-! Basic lemmas about rounding and the row helpers. -/

theorem roundHalfEven_intCast (n : ℤ) : roundHalfEven (n : ℚ) = n := by
  simp only [roundHalfEven, Int.floor_intCast]
  norm_num

theorem round2_centMul (n : ℤ) : round2 ((n : ℚ) / 100) = (n : ℚ) / 100 := by
  have h : ((n : ℚ) / 100) * 100 = (n : ℚ) := by
    field_simp
  rw [round2, h, roundHalfEven_intCast]

theorem round2_cent (q : ℚ) : ∃ n : ℤ, round2 q = (n : ℚ) / 100 :=
  ⟨roundHalfEven (q * 100), rfl⟩

theorem round2_sub_cent (a b : ℚ) (ha : ∃ n : ℤ, a = (n : ℚ) / 100)
    (hb : ∃ m : ℤ, b = (m : ℚ) / 100) : round2 (a - b) = a - b := by
  obtain ⟨n, rfl⟩ := ha
  obtain ⟨m, rfl⟩ := hb
  have h : (n : ℚ) / 100 - (m : ℚ) / 100 = ((n - m : ℤ) : ℚ) / 100 := by
    push_cast
    ring
  rw [h, round2_centMul]

theorem findBy_saveBy_self (key : α → ℕ) (rows : List α) (x : α)
    (h : (findBy key rows (key x)).isSome) :
    findBy key (saveBy key rows x) (key x) = some x := by
  induction rows with
  | nil => simp [findBy] at h
  | cons r rs ih =>
    simp only [findBy, saveBy, List.map_cons] at h ⊢
    by_cases hk : key r = key x
    · rw [if_pos (by simp [hk]), List.find?_cons_of_pos _ (by simp)]
    · rw [if_neg (by simp [hk]), List.find?_cons_of_neg _ (by simp [hk])]
      rw [List.find?_cons_of_neg _ (by simp [hk])] at h
      exact ih h

theorem findBy_saveBy_other (key : α → ℕ) (rows : List α) (x : α) (k : ℕ)
    (h : key x ≠ k) :
    findBy key (saveBy key rows x) k = findBy key rows k := by
  induction rows with
  | nil => simp [findBy, saveBy]
  | cons r rs ih =>
    simp only [findBy, saveBy, List.map_cons] at ih ⊢
    by_cases hk : key r = key x
    · rw [if_pos (by simp [hk]),
        List.find?_cons_of_neg _ (by simp [h]),
        List.find?_cons_of_neg _ (by simp [hk, h])]
      exact ih
    · rw [if_neg (by simp [hk])]
      by_cases hk2 : key r = k
      · rw [List.find?_cons_of_pos _ (by simp [hk2]),
          List.find?_cons_of_pos _ (by simp [hk2])]
      · rw [List.find?_cons_of_neg _ (by simp [hk2]),
          List.find?_cons_of_neg _ (by simp [hk2])]
        exact ih

theorem findBy_saveBy_isSome (key : α → ℕ) (rows : List α) (x : α) (k : ℕ) :
    (findBy key (saveBy key rows x) k).isSome = (findBy key rows k).isSome := by
  induction rows with
  | nil => simp [findBy, saveBy]
  | cons r rs ih =>
    simp only [findBy, saveBy, List.map_cons] at ih ⊢
    by_cases hk : key r = key x
    · by_cases hk2 : key r = k
      · rw [List.find?_cons_of_pos _ (by simp [hk, hk2]; omega),
          List.find?_cons_of_pos _ (by simp [hk2])]
        simp
      · rw [List.find?_cons_of_neg _ (by simp [hk] at hk2 ⊢; omega),
          List.find?_cons_of_neg _ (by simp [hk2])]
        exact ih
    · rw [if_neg (by simp [hk])]
      by_cases hk2 : key r = k
      · rw [List.find?_cons_of_pos _ (by simp [hk2]),
          List.find?_cons_of_pos _ (by simp [hk2])]
      · rw [List.find?_cons_of_neg _ (by simp [hk2]),
          List.find?_cons_of_neg _ (by simp [hk2])]
        exact ih

/-! Lemmas about sale validation. -/

theorem validateItems_ok_sums (s : Store) :
    ∀ (l : List SaleItemRequest) (a b c x y z : ℚ),
    validateItems s l a b c = .ok (x, y, z) →
    x = a + specRawSubtotal s l ∧ y = b + specRawDiscount s l ∧ z = c + specRawTax s l := by
  intro l
  induction l with
  | nil =>
    intro a b c x y z h
    simp only [validateItems, Except.ok.injEq, Prod.mk.injEq] at h
    obtain ⟨hx, hy, hz⟩ := h
    simp [specRawSubtotal, specRawDiscount, specRawTax, ← hx, ← hy, ← hz]
  | cons it rest ih =>
    intro a b c x y z h
    simp only [validateItems] at h
    cases hfp : findProduct s it.product_id with
    | none => rw [hfp] at h; simp at h
    | some p =>
      simp only [hfp] at h
      by_cases hst : p.stock_quantity < (it.quantity : ℤ)
      · simp [hst] at h
      · simp only [if_neg hst] at h
        obtain ⟨hx, hy, hz⟩ := ih _ _ _ _ _ _ h
        refine ⟨?_, ?_, ?_⟩
        · rw [hx]
          simp only [specRawSubtotal, List.map_cons, List.sum_cons, hfp]
          ring
        · rw [hy]
          simp only [specRawDiscount, List.map_cons, List.sum_cons, hfp]
          ring
        · rw [hz]
          simp only [specRawTax, List.map_cons, List.sum_cons, hfp]
          ring

theorem validateSale_ok_elim (s : Store) (r : SaleRequest) (c : Calculated)
    (h : validateSale s r = .ok c) :
    ∃ sub disc tax, validateItems s r.items 0 0 0 = .ok (sub, disc, tax) ∧
      c.subtotal = round2 sub ∧ c.tax_amount = round2 tax ∧ c.discount_amount = round2 disc ∧
      c.total = round2 (sub - disc + tax) ∧
      c.change_amount = round2 (r.amount_paid - c.total) ∧
      ¬ r.amount_paid < c.total := by
  unfold validateSale at h
  by_cases he : r.items.isEmpty
  · simp [he] at h
  · rw [if_neg he] at h
    cases hvi : validateItems s r.items 0 0 0 with
    | error e => rw [hvi] at h; simp at h
    | ok t =>
      obtain ⟨sub, disc, tax⟩ := t
      rw [hvi] at h
      by_cases hp : r.amount_paid < round2 (sub - disc + tax)
      · simp [hp] at h
      · simp only [if_neg hp, Except.ok.injEq] at h
        subst h
        exact ⟨sub, disc, tax, rfl, rfl, rfl, rfl, rfl, rfl, hp⟩

theorem createSale_ok_elim (s : Store) (r : SaleRequest) (sale : Sale)
    (h : (createSale s r).2 = .ok sale) :
    ∃ c, validateSale s r = .ok c ∧
      sale.total = c.total ∧ sale.change_amount = c.change_amount ∧
      sale.amount_paid = r.amount_paid ∧ sale.subtotal = c.subtotal ∧
      sale.tax_amount = c.tax_amount ∧ sale.discount_amount = c.discount_amount ∧
      sale.status = .completed := by
  unfold createSale at h
  cases hv : validateSale s r with
  | error e => rw [hv] at h; simp at h
  | ok c =>
    rw [hv] at h
    simp only [Except.ok.injEq] at h
    subst h
    exact ⟨c, rfl, rfl, rfl, rfl, rfl, rfl, rfl, rfl⟩

/-- C1: for every sale request the Sale Transaction Processor accepts, the
persisted sale's total equals the raw per-item aggregate subtotal minus the
aggregate discount plus the aggregate tax, rounded to 2 decimal places at
the aggregate level only, and its change_amount equals amount_paid minus
total (amount_paid enters with at most 2 decimal places, as the serializer
field enforces). -/
theorem sale_totals_match_spec (s : Store) (r : SaleRequest) (sale : Sale)
    (h : (createSale s r).2 = .ok sale)
    (hpaid : ∃ n : ℤ, r.amount_paid = (n : ℚ) / 100) :
    sale.total =
      round2 (specRawSubtotal s r.items - specRawDiscount s r.items + specRawTax s r.items) ∧
    sale.change_amount = sale.amount_paid - sale.total := by
  obtain ⟨c, hv, htot, hch, hpd, -, -, -, -⟩ := createSale_ok_elim s r sale h
  obtain ⟨sub, disc, tax, hvi, -, -, -, hct, hcch, -⟩ := validateSale_ok_elim s r c hv
  obtain ⟨hx, hy, hz⟩ := validateItems_ok_sums s r.items 0 0 0 sub disc tax hvi
  constructor
  · rw [htot, hct, hx, hy, hz]
    ring_nf
  · rw [hch, hcch, hpd, htot]
    exact round2_sub_cent _ _ hpaid (by rw [hct]; exact round2_cent _)

/-- Witness for C1: the two-unit cash sale of the example product is
accepted and satisfies the aggregate equations. -/
theorem sale_totals_match_spec_witness :
    exSale.total =
      round2 (specRawSubtotal exStore exSaleReq.items - specRawDiscount exStore exSaleReq.items +
        specRawTax exStore exSaleReq.items) ∧
    exSale.change_amount = exSale.amount_paid - exSale.total :=
  sale_totals_match_spec exStore exSaleReq exSale
    (by norm_num [createSale, validateSale, validateItems, findProduct, findBy, List.find?,
      exStore, exSaleReq, exProduct, exSale, round2, roundHalfEven, Sale.mk.injEq])
    ⟨25000, by norm_num [exSaleReq]⟩

/-! Lemmas about stock-validation failure. -/

theorem validateItems_insufficient (s : Store) :
    ∀ (l : List SaleItemRequest) (a b c : ℚ),
    (∀ it ∈ l, (findProduct s it.product_id).isSome) →
    (∃ it ∈ l, ∃ p, findProduct s it.product_id = some p ∧
      p.stock_quantity < (it.quantity : ℤ)) →
    ∃ pid, validateItems s l a b c = .error (.insufficientStock pid) := by
  intro l
  induction l with
  | nil =>
    intro a b c _ hbad
    simp at hbad
  | cons it rest ih =>
    intro a b c hfk hbad
    cases hfp : findProduct s it.product_id with
    | none =>
      have hs := hfk it (by simp)
      rw [hfp] at hs
      simp at hs
    | some p =>
      by_cases hst : p.stock_quantity < (it.quantity : ℤ)
      · exact ⟨it.product_id, by simp [validateItems, hfp, hst]⟩
      · have hbad2 : ∃ it2 ∈ rest, ∃ p2, findProduct s it2.product_id = some p2 ∧
            p2.stock_quantity < (it2.quantity : ℤ) := by
          obtain ⟨it2, hmem, p2, hp2, hlt⟩ := hbad
          rcases List.mem_cons.mp hmem with heq | hmem2
          · subst heq
            rw [hfp] at hp2
            injection hp2 with hp2
            subst hp2
            exact absurd hlt hst
          · exact ⟨it2, hmem2, p2, hp2, hlt⟩
        simp only [validateItems, hfp, if_neg hst]
        exact ih _ _ _ (fun x hx => hfk x (by simp [hx])) hbad2

/-- C2: a sale request in which some item's quantity exceeds its product's
stock is rejected with InsufficientStock before any write: the store is
returned unchanged, so no Sale, SaleItem, Payment or StockMovement row is
created (all referenced products exist; an unknown product would already
have failed with NotFound). -/
theorem insufficient_stock_rejected (s : Store) (r : SaleRequest)
    (hfk : ∀ it ∈ r.items, (findProduct s it.product_id).isSome)
    (hbad : ∃ it ∈ r.items, ∃ p, findProduct s it.product_id = some p ∧
      p.stock_quantity < (it.quantity : ℤ)) :
    (createSale s r).1 = s ∧
    ∃ pid, (createSale s r).2 = .error (.insufficientStock pid) := by
  have he : r.items.isEmpty = false := by
    obtain ⟨it, hmem, -⟩ := hbad
    cases hl : r.items with
    | nil => rw [hl] at hmem; simp at hmem
    | cons a l => simp
  obtain ⟨pid, hvi⟩ := validateItems_insufficient s r.items 0 0 0 hfk hbad
  have hv : validateSale s r = .error (.insufficientStock pid) := by
    simp [validateSale, he, hvi]
  constructor
  · simp [createSale, hv]
  · exact ⟨pid, by simp [createSale, hv]⟩

/-- Witness for C2: requesting 20 units with only 10 in stock is rejected
and leaves the store unchanged. -/
theorem insufficient_stock_rejected_witness :
    (createSale exStore
      { customer_name := ""
        items := [{ product_id := 1, quantity := 20, discount_percent := 0 }]
        payment_method := .cash
        amount_paid := 5000
        notes := "" }).1 = exStore ∧
    ∃ pid, (createSale exStore
      { customer_name := ""
        items := [{ product_id := 1, quantity := 20, discount_percent := 0 }]
        payment_method := .cash
        amount_paid := 5000
        notes := "" }).2 = .error (.insufficientStock pid) :=
  insufficient_stock_rejected exStore _
    (by
      intro it hit
      simp only [List.mem_singleton] at hit
      subst hit
      simp [findProduct, findBy, exStore, exProduct, List.find?])
    ⟨{ product_id := 1, quantity := 20, discount_percent := 0 }, by simp, exProduct,
      by simp [findProduct, findBy, exStore, exProduct, List.find?], by norm_num [exProduct]⟩

/-! Lemmas about the ledger invariant. -/

theorem ensureAlert_movements (s : Store) (pid : ℕ) (al cs : ℤ) :
    (ensureAlert s pid al cs).movements = s.movements := by
  unfold ensureAlert
  split <;> rfl

theorem saleOneItem_movements (saleId : ℕ) (s : Store) (it : SaleItemRequest)
    (m : StockMovement) (hm : m ∈ (saleOneItem saleId s it).movements) :
    m ∈ s.movements ∨ movInv m := by
  unfold saleOneItem at hm
  cases hfp : findProduct s it.product_id with
  | none =>
    rw [hfp] at hm
    exact .inl hm
  | some p =>
    simp only [hfp, List.mem_append, List.mem_singleton] at hm
    rcases hm with h | h
    · exact .inl h
    · subst h
      right
      simp only [movInv]
      ring

theorem createSaleItems_movements (saleId : ℕ) :
    ∀ (l : List SaleItemRequest) (s : Store) (m : StockMovement),
    m ∈ (createSaleItems saleId s l).movements → m ∈ s.movements ∨ movInv m := by
  intro l
  induction l with
  | nil =>
    intro s m hm
    exact .inl hm
  | cons it rest ih =>
    intro s m hm
    simp only [createSaleItems] at hm
    rcases ih (saleOneItem saleId s it) m hm with h | h
    · exact saleOneItem_movements saleId s it m h
    · exact .inr h

theorem createSale_movements (s : Store) (r : SaleRequest) (m : StockMovement)
    (hm : m ∈ (createSale s r).1.movements) : m ∈ s.movements ∨ movInv m := by
  unfold createSale at hm
  cases hv : validateSale s r with
  | error e =>
    rw [hv] at hm
    exact .inl hm
  | ok c =>
    simp only [hv] at hm
    have h2 := createSaleItems_movements _ _ _ m hm
    exact h2

theorem movInv_adjMovement (r : AdjustmentRequest) (p : Product) :
    movInv (adjMovement r p) := by
  simp only [movInv, adjMovement]
  cases r.adjustment_type <;>
    simp [adjNewQuantity, adjMovementQuantity]

theorem stockAdjust_movements (s : Store) (r : AdjustmentRequest) (m : StockMovement)
    (hm : m ∈ (stockAdjust s r).1.movements) : m ∈ s.movements ∨ movInv m := by
  unfold stockAdjust at hm
  cases hfp : findProduct s r.product_id with
  | none =>
    rw [hfp] at hm
    exact .inl hm
  | some p =>
    simp only [hfp] at hm
    by_cases hrem : r.adjustment_type = .remove ∧ p.stock_quantity < (r.quantity : ℤ)
    · rw [if_pos hrem] at hm
      exact .inl hm
    · rw [if_neg hrem] at hm
      by_cases hmin : (adjMovement r p).new_quantity ≤ p.min_stock_level
      · rw [if_pos hmin, ensureAlert_movements] at hm
        rcases List.mem_append.mp hm with h | h
        · exact .inl h
        · rw [List.mem_singleton] at h
          subst h
          exact .inr (movInv_adjMovement r p)
      · rw [if_neg hmin] at hm
        rcases List.mem_append.mp hm with h | h
        · exact .inl h
        · rw [List.mem_singleton] at h
          subst h
          exact .inr (movInv_adjMovement r p)

theorem receiveOneItem_movements (po : PurchaseOrder) (s : Store)
    (item : PurchaseOrderItem) (m : StockMovement)
    (hm : m ∈ (receiveOneItem po s item).movements) : m ∈ s.movements ∨ movInv m := by
  unfold receiveOneItem at hm
  cases hfp : findProduct s item.product with
  | none =>
    rw [hfp] at hm
    exact .inl hm
  | some p =>
    simp only [hfp, List.mem_append, List.mem_singleton] at hm
    rcases hm with h | h
    · exact .inl h
    · subst h
      right
      simp only [movInv]
      ring

theorem receiveItems_movements (po : PurchaseOrder) :
    ∀ (l : List PurchaseOrderItem) (s : Store) (m : StockMovement),
    m ∈ (receiveItems po s l).movements → m ∈ s.movements ∨ movInv m := by
  intro l
  induction l with
  | nil =>
    intro s m hm
    exact .inl hm
  | cons item rest ih =>
    intro s m hm
    simp only [receiveItems] at hm
    rcases ih (receiveOneItem po s item) m hm with h | h
    · exact receiveOneItem_movements po s item m h
    · exact .inr h

theorem receivePO_movements (s : Store) (poid : ℕ) (m : StockMovement)
    (hm : m ∈ (receivePO s poid).1.movements) : m ∈ s.movements ∨ movInv m := by
  unfold receivePO at hm
  cases hpo : findPO s poid with
  | none =>
    rw [hpo] at hm
    exact .inl hm
  | some po =>
    simp only [hpo] at hm
    by_cases hst : po.status = .received
    · rw [if_pos hst] at hm
      exact .inl hm
    · rw [if_neg hst] at hm
      exact receiveItems_movements po (itemsOfPO s poid) s m hm

/-- C3: every StockMovement row created by sale creation, by a manual stock
adjustment, or by purchase-order receiving satisfies new_quantity minus
previous_quantity equals the signed movement quantity: each of the three
processors only appends movements satisfying the ledger invariant. -/
theorem stock_movement_delta_invariant (s : Store) (r : SaleRequest)
    (a : AdjustmentRequest) (poid : ℕ) (m : StockMovement) :
    (m ∈ (createSale s r).1.movements → m ∈ s.movements ∨ movInv m) ∧
    (m ∈ (stockAdjust s a).1.movements → m ∈ s.movements ∨ movInv m) ∧
    (m ∈ (receivePO s poid).1.movements → m ∈ s.movements ∨ movInv m) :=
  ⟨createSale_movements s r m, stockAdjust_movements s a m, receivePO_movements s poid m⟩

/-- Witness for C3: the movement appended by the example adjustment is a
fresh row and satisfies the ledger invariant. -/
theorem stock_movement_delta_invariant_witness :
    exAdjMovement ∈ exStore.movements ∨ movInv exAdjMovement :=
  (stock_movement_delta_invariant exStore exSaleReq exAdjReq 0 exAdjMovement).2.1
    (by simp [stockAdjust, findProduct, findBy, List.find?, exStore, exProduct, exAdjReq,
      adjMovement, adjNewQuantity, adjMovementQuantity, ensureAlert, hasOpenAlert,
      exAdjMovement])

/-! Lemmas about purchase-order receiving. -/

theorem findBy_key (key : α → ℕ) (rows : List α) (k : ℕ) (x : α)
    (h : findBy key rows k = some x) : key x = k := by
  unfold findBy at h
  have h2 := List.find?_some h
  simpa using h2

theorem findBy_isSome_of_mem (key : α → ℕ) (rows : List α) (x : α) (h : x ∈ rows) :
    (findBy key rows (key x)).isSome := by
  unfold findBy
  rw [List.find?_isSome]
  exact ⟨x, h, by simp⟩

theorem receiveOneItem_findProduct_isSome (po : PurchaseOrder) (s : Store)
    (item : PurchaseOrderItem) (pid : ℕ) :
    (findProduct (receiveOneItem po s item) pid).isSome = (findProduct s pid).isSome := by
  unfold receiveOneItem
  cases hfp : findProduct s item.product with
  | none => rfl
  | some p =>
    simp only [findProduct]
    exact findBy_saveBy_isSome Product.id s.products _ pid

theorem receiveOneItem_stockOf (po : PurchaseOrder) (s : Store)
    (item : PurchaseOrderItem) (pid : ℕ)
    (hfk : (findProduct s item.product).isSome) :
    stockOf (receiveOneItem po s item) pid =
      if item.product = pid then
        (stockOf s pid).map (fun q => q + (item.quantity_ordered : ℤ))
      else stockOf s pid := by
  obtain ⟨p, hp⟩ := Option.isSome_iff_exists.mp hfk
  have hpid : p.id = item.product := findBy_key Product.id s.products item.product p hp
  unfold receiveOneItem
  simp only [hp]
  set p2 : Product := { p with stock_quantity := p.stock_quantity + (item.quantity_ordered : ℤ) }
    with hp2def
  have hkey : p2.id = p.id := rfl
  by_cases heq : item.product = pid
  · rw [if_pos heq]
    simp only [stockOf, findProduct]
    have hself := findBy_saveBy_self Product.id s.products p2
      (by rw [hkey, hpid]; exact Option.isSome_iff_exists.mpr ⟨p, hp⟩)
    rw [hkey, hpid, heq] at hself
    have hp2 : findBy Product.id s.products item.product = some p := hp
    rw [hself, ← heq, hp2]
    simp [hp2def]
  · rw [if_neg heq]
    simp only [stockOf, findProduct]
    have hother := findBy_saveBy_other Product.id s.products p2 pid
      (by rw [hkey, hpid]; exact heq)
    rw [hother]

theorem receiveItems_stockOf (po : PurchaseOrder) :
    ∀ (l : List PurchaseOrderItem) (s : Store) (pid : ℕ),
    (∀ i ∈ l, (findProduct s i.product).isSome) →
    stockOf (receiveItems po s l) pid = (stockOf s pid).map (fun q => q + orderedSum l pid) := by
  intro l
  induction l with
  | nil =>
    intro s pid _
    simp only [receiveItems, orderedSum, List.filter_nil, List.map_nil, List.sum_nil]
    cases stockOf s pid <;> simp
  | cons item rest ih =>
    intro s pid hfk
    simp only [receiveItems]
    have hfk1 : (findProduct s item.product).isSome := hfk item (by simp)
    have hfkrest : ∀ i ∈ rest, (findProduct (receiveOneItem po s item) i.product).isSome := by
      intro i hi
      rw [receiveOneItem_findProduct_isSome]
      exact hfk i (by simp [hi])
    rw [ih (receiveOneItem po s item) pid hfkrest,
      receiveOneItem_stockOf po s item pid hfk1]
    by_cases heq : item.product = pid
    · rw [if_pos heq]
      have hsum : orderedSum (item :: rest) pid =
          (item.quantity_ordered : ℤ) + orderedSum rest pid := by
        simp [orderedSum, List.filter_cons, heq]
      rw [hsum]
      cases stockOf s pid <;> simp <;> ring
    · rw [if_neg heq]
      have hsum : orderedSum (item :: rest) pid = orderedSum rest pid := by
        simp [orderedSum, List.filter_cons, heq]
      rw [hsum]

theorem resolveAlertsFor_resolved (alerts : List StockAlert) (pid : ℕ) :
    ∀ a ∈ resolveAlertsFor alerts pid, a.product = pid → a.is_resolved = true := by
  intro a ha hpid
  unfold resolveAlertsFor at ha
  obtain ⟨b, hb, hba⟩ := List.mem_map.mp ha
  by_cases hcond : (b.product == pid && !b.is_resolved) = true
  · rw [if_pos hcond] at hba
    rw [← hba]
  · rw [if_neg hcond] at hba
    subst hba
    simp only [Bool.and_eq_true, beq_iff_eq, Bool.not_eq_true'] at hcond
    rcases Decidable.not_and_iff_or_not.mp hcond with h | h
    · exact absurd hpid h
    · simpa using h

theorem resolveAlertsFor_preserve (alerts : List StockAlert) (pid pid2 : ℕ)
    (h : ∀ a ∈ alerts, a.product = pid2 → a.is_resolved = true) :
    ∀ a ∈ resolveAlertsFor alerts pid, a.product = pid2 → a.is_resolved = true := by
  intro a ha hpid
  unfold resolveAlertsFor at ha
  obtain ⟨b, hb, hba⟩ := List.mem_map.mp ha
  by_cases hcond : (b.product == pid && !b.is_resolved) = true
  · rw [if_pos hcond] at hba
    rw [← hba]
  · rw [if_neg hcond] at hba
    subst hba
    exact h b hb hpid

theorem receiveOneItem_allResolved_preserve (po : PurchaseOrder) (s : Store)
    (item : PurchaseOrderItem) (pid : ℕ) (h : allResolved s pid) :
    allResolved (receiveOneItem po s item) pid := by
  unfold receiveOneItem
  cases hfp : findProduct s item.product with
  | none => exact h
  | some p =>
    intro a ha hpid
    exact resolveAlertsFor_preserve s.alerts p.id pid h a ha hpid

theorem receiveOneItem_allResolved_establish (po : PurchaseOrder) (s : Store)
    (item : PurchaseOrderItem) (hfk : (findProduct s item.product).isSome) :
    allResolved (receiveOneItem po s item) item.product := by
  obtain ⟨p, hp⟩ := Option.isSome_iff_exists.mp hfk
  have hpid : p.id = item.product := findBy_key Product.id s.products item.product p hp
  unfold receiveOneItem
  rw [hp]
  intro a ha hpid2
  exact resolveAlertsFor_resolved s.alerts p.id a ha (by rw [hpid2, hpid])

theorem receiveItems_allResolved_preserve (po : PurchaseOrder) :
    ∀ (l : List PurchaseOrderItem) (s : Store) (pid : ℕ), allResolved s pid →
    allResolved (receiveItems po s l) pid := by
  intro l
  induction l with
  | nil => intro s pid h; exact h
  | cons item rest ih =>
    intro s pid h
    simp only [receiveItems]
    exact ih _ pid (receiveOneItem_allResolved_preserve po s item pid h)

theorem receiveItems_allResolved (po : PurchaseOrder) :
    ∀ (l : List PurchaseOrderItem) (s : Store),
    (∀ i ∈ l, (findProduct s i.product).isSome) →
    ∀ i ∈ l, allResolved (receiveItems po s l) i.product := by
  intro l
  induction l with
  | nil => intro s _ i hi; simp at hi
  | cons item rest ih =>
    intro s hfk i hi
    simp only [receiveItems]
    have hfkrest : ∀ j ∈ rest, (findProduct (receiveOneItem po s item) j.product).isSome := by
      intro j hj
      rw [receiveOneItem_findProduct_isSome]
      exact hfk j (by simp [hj])
    rcases List.mem_cons.mp hi with heq | hmem
    · subst heq
      exact receiveItems_allResolved_preserve po rest _ i.product
        (receiveOneItem_allResolved_establish po s i (hfk i (by simp)))
    · exact ih _ hfkrest i hmem

theorem receiveOneItem_purchaseOrders (po : PurchaseOrder) (s : Store)
    (item : PurchaseOrderItem) :
    (receiveOneItem po s item).purchaseOrders = s.purchaseOrders := by
  unfold receiveOneItem
  split <;> rfl

theorem receiveItems_purchaseOrders (po : PurchaseOrder) :
    ∀ (l : List PurchaseOrderItem) (s : Store),
    (receiveItems po s l).purchaseOrders = s.purchaseOrders := by
  intro l
  induction l with
  | nil => intro s; rfl
  | cons item rest ih =>
    intro s
    simp only [receiveItems]
    rw [ih, receiveOneItem_purchaseOrders]

theorem receiveOneItem_poItems_isSome (po : PurchaseOrder) (s : Store)
    (item : PurchaseOrderItem) (k : ℕ) :
    (findBy PurchaseOrderItem.id (receiveOneItem po s item).poItems k).isSome =
      (findBy PurchaseOrderItem.id s.poItems k).isSome := by
  unfold receiveOneItem
  cases hfp : findProduct s item.product with
  | none => rfl
  | some p => exact findBy_saveBy_isSome PurchaseOrderItem.id s.poItems _ k

theorem receiveOneItem_poItems_self (po : PurchaseOrder) (s : Store)
    (item : PurchaseOrderItem)
    (hfk : (findProduct s item.product).isSome)
    (hex : (findBy PurchaseOrderItem.id s.poItems item.id).isSome) :
    findBy PurchaseOrderItem.id (receiveOneItem po s item).poItems item.id =
      some { item with quantity_received := item.quantity_ordered } := by
  obtain ⟨p, hp⟩ := Option.isSome_iff_exists.mp hfk
  unfold receiveOneItem
  simp only [hp]
  exact findBy_saveBy_self PurchaseOrderItem.id s.poItems
    { item with quantity_received := item.quantity_ordered } hex

theorem receiveOneItem_poItems_other (po : PurchaseOrder) (s : Store)
    (item : PurchaseOrderItem) (k : ℕ) (hne : item.id ≠ k) :
    findBy PurchaseOrderItem.id (receiveOneItem po s item).poItems k =
      findBy PurchaseOrderItem.id s.poItems k := by
  unfold receiveOneItem
  cases hfp : findProduct s item.product with
  | none => rfl
  | some p => exact findBy_saveBy_other PurchaseOrderItem.id s.poItems _ k hne

theorem receiveItems_poItems_other (po : PurchaseOrder) :
    ∀ (l : List PurchaseOrderItem) (s : Store) (k : ℕ),
    (∀ i ∈ l, i.id ≠ k) →
    findBy PurchaseOrderItem.id (receiveItems po s l).poItems k =
      findBy PurchaseOrderItem.id s.poItems k := by
  intro l
  induction l with
  | nil => intro s k _; rfl
  | cons item rest ih =>
    intro s k hne
    simp only [receiveItems]
    rw [ih _ k (fun i hi => hne i (by simp [hi])),
      receiveOneItem_poItems_other po s item k (hne item (by simp))]

theorem receiveItems_received (po : PurchaseOrder) :
    ∀ (l : List PurchaseOrderItem) (s : Store),
    (∀ i ∈ l, (findProduct s i.product).isSome) →
    (∀ i ∈ l, (findBy PurchaseOrderItem.id s.poItems i.id).isSome) →
    (l.map PurchaseOrderItem.id).Nodup →
    ∀ i ∈ l, findBy PurchaseOrderItem.id (receiveItems po s l).poItems i.id =
      some { i with quantity_received := i.quantity_ordered } := by
  intro l
  induction l with
  | nil => intro s _ _ _ i hi; simp at hi
  | cons item rest ih =>
    intro s hfk hex hnd i hi
    simp only [receiveItems]
    simp only [List.map_cons, List.nodup_cons] at hnd
    obtain ⟨hnotin, hndrest⟩ := hnd
    rcases List.mem_cons.mp hi with heq | hmem
    · subst heq
      rw [receiveItems_poItems_other po rest _ i.id
        (fun j hj hjeq => hnotin (hjeq ▸ List.mem_map_of_mem PurchaseOrderItem.id hj))]
      exact receiveOneItem_poItems_self po s i (hfk i (by simp)) (hex i (by simp))
    · exact ih (receiveOneItem po s item)
        (fun j hj => by
          rw [receiveOneItem_findProduct_isSome]
          exact hfk j (by simp [hj]))
        (fun j hj => by
          rw [receiveOneItem_poItems_isSome]
          exact hex j (by simp [hj]))
        hndrest i hmem

/-- C4: receiving a not-yet-received purchase order increases each product's
stock by the total ordered quantity across the order's items for that
product, resolves every alert of each affected product (in particular every
previously open one), sets each item's quantity_received to its
quantity_ordered, and marks the order received; receiving an
already-received order fails with Conflict and changes nothing. -/
theorem receive_po_correct (s : Store) (poid : ℕ) (po : PurchaseOrder)
    (hpo : findPO s poid = some po)
    (hfk : ∀ i ∈ itemsOfPO s poid, (findProduct s i.product).isSome)
    (hnodup : (s.poItems.map PurchaseOrderItem.id).Nodup) :
    (po.status = .received → receivePO s poid = (s, .error .conflict)) ∧
    (po.status ≠ .received →
      (receivePO s poid).2 = .ok { po with status := POStatus.received } ∧
      findPO (receivePO s poid).1 poid = some { po with status := POStatus.received } ∧
      (∀ pid, stockOf (receivePO s poid).1 pid =
        (stockOf s pid).map (fun q => q + orderedSum (itemsOfPO s poid) pid)) ∧
      (∀ i ∈ itemsOfPO s poid,
        findBy PurchaseOrderItem.id (receivePO s poid).1.poItems i.id =
          some { i with quantity_received := i.quantity_ordered }) ∧
      (∀ a ∈ (receivePO s poid).1.alerts,
        (∃ i ∈ itemsOfPO s poid, i.product = a.product) → a.is_resolved = true)) := by
  have hpoid : po.id = poid := findBy_key PurchaseOrder.id s.purchaseOrders poid po hpo
  constructor
  · intro hst
    unfold receivePO
    rw [hpo]
    simp [hst]
  · intro hst
    have hrec : receivePO s poid =
        ({ receiveItems po s (itemsOfPO s poid) with
            purchaseOrders := saveBy PurchaseOrder.id
              (receiveItems po s (itemsOfPO s poid)).purchaseOrders
              { po with status := POStatus.received } },
          .ok { po with status := POStatus.received }) := by
      unfold receivePO
      rw [hpo]
      simp [hst]
    refine ⟨by rw [hrec], ?_, ?_, ?_, ?_⟩
    · rw [hrec]
      simp only [findPO]
      have hpo2 : findBy PurchaseOrder.id s.purchaseOrders poid = some po := hpo
      have hsome : (findBy PurchaseOrder.id
          (receiveItems po s (itemsOfPO s poid)).purchaseOrders
          ({ po with status := POStatus.received } : PurchaseOrder).id).isSome := by
        rw [receiveItems_purchaseOrders]
        show (findBy PurchaseOrder.id s.purchaseOrders po.id).isSome
        rw [hpoid, hpo2]
        rfl
      have hself := findBy_saveBy_self PurchaseOrder.id
        (receiveItems po s (itemsOfPO s poid)).purchaseOrders
        { po with status := POStatus.received } hsome
      nth_rewrite 2 [← hpoid]
      exact hself
    · intro pid
      rw [hrec]
      have h3 := receiveItems_stockOf po (itemsOfPO s poid) s pid hfk
      exact h3
    · intro i hi
      rw [hrec]
      have h4 := receiveItems_received po (itemsOfPO s poid) s
        (by exact hfk)
        (fun j hj => findBy_isSome_of_mem PurchaseOrderItem.id s.poItems j
          (List.mem_of_mem_filter hj))
        ((List.filter_sublist s.poItems).map PurchaseOrderItem.id |>.nodup hnodup)
        i hi
      exact h4
    · intro a ha hex
      obtain ⟨i, hi, hip⟩ := hex
      rw [hrec] at ha
      have h5 := receiveItems_allResolved po (itemsOfPO s poid) s hfk i hi
      exact h5 a ha hip.symm

/-- Witness for C4: receiving the example pending order succeeds and returns
it with status received. -/
theorem receive_po_correct_witness :
    (receivePO exPOStore 1).2 = .ok { exPO with status := POStatus.received } :=
  ((receive_po_correct exPOStore 1 exPO rfl
    (by
      intro i hi
      simp [itemsOfPO, exPOStore, exPOItem, List.filter] at hi
      subst hi
      rfl)
    (by simp [exPOStore, exPOItem])).2 (by simp [exPO])).1

/-- Counterexample for C5: the purchase-order endpoints guard only against
the `received` status, so receiving a CANCELLED order succeeds and moves it
to `received`, contradicting the claim that a cancelled order can never
become received. -/
theorem po_cancelled_becomes_received :
    (findPO exPOStoreCancelled 1).map PurchaseOrder.status = some POStatus.cancelled ∧
    (receivePO exPOStoreCancelled 1).2 =
      .ok { exPOCancelled with status := POStatus.received } ∧
    (findPO (receivePO exPOStoreCancelled 1).1 1).map PurchaseOrder.status =
      some POStatus.received :=
  ⟨rfl, rfl, rfl⟩

/-- C5 (amended): once a purchase order is received it is terminal — both
receiving and cancelling it again fail with Conflict and change nothing —
and cancelling a cancelled order leaves it cancelled; but receiving does not
guard against the cancelled status, so a cancelled order CAN still become
received (see the counterexample). -/
theorem po_status_transitions (s : Store) (poid : ℕ) (po : PurchaseOrder)
    (hpo : findPO s poid = some po) :
    (po.status = .received → receivePO s poid = (s, .error .conflict) ∧
      cancelPO s poid = (s, .error .conflict)) ∧
    (po.status = .cancelled →
      (cancelPO s poid).2 = .ok { po with status := POStatus.cancelled } ∧
      (findPO (cancelPO s poid).1 poid).map PurchaseOrder.status =
        some POStatus.cancelled) := by
  have hpoid : po.id = poid := findBy_key PurchaseOrder.id s.purchaseOrders poid po hpo
  have hpo2 : findBy PurchaseOrder.id s.purchaseOrders poid = some po := hpo
  constructor
  · intro hst
    constructor
    · unfold receivePO
      simp only [hpo]
      simp [hst]
    · unfold cancelPO
      simp only [hpo]
      simp [hst]
  · intro hst
    have hne : po.status ≠ .received := by
      rw [hst]
      intro hcon
      exact POStatus.noConfusion hcon
    have hcan : cancelPO s poid =
        ({ s with
            purchaseOrders := saveBy PurchaseOrder.id s.purchaseOrders
              ({ po with status := POStatus.cancelled }) },
          .ok { po with status := POStatus.cancelled }) := by
      unfold cancelPO
      simp only [hpo]
      rw [if_neg hne]
    refine ⟨by rw [hcan], ?_⟩
    rw [hcan]
    simp only [findPO]
    have hsome : (findBy PurchaseOrder.id s.purchaseOrders
        ({ po with status := POStatus.cancelled } : PurchaseOrder).id).isSome := by
      show (findBy PurchaseOrder.id s.purchaseOrders po.id).isSome
      rw [hpoid, hpo2]
      rfl
    have hself := findBy_saveBy_self PurchaseOrder.id s.purchaseOrders
      { po with status := POStatus.cancelled } hsome
    nth_rewrite 1 [← hpoid]
    rw [hself]
    rfl

/-- Witness for C5: cancelling the already-cancelled example order keeps its
status cancelled. -/
theorem po_status_transitions_witness :
    (cancelPO exPOStoreCancelled 1).2 =
      .ok { exPOCancelled with status := POStatus.cancelled } ∧
    (findPO (cancelPO exPOStoreCancelled 1).1 1).map PurchaseOrder.status =
      some POStatus.cancelled :=
  (po_status_transitions exPOStoreCancelled 1 exPOCancelled rfl).2 rfl

/-- Counterexample for C6: restocking the low-stock product to 102 units,
far above its minimum of 10, leaves its previously open StockAlert open:
the Stock Adjustment Processor never resolves alerts. -/
theorem adjustment_leaves_alert_open :
    (stockAdjust exAlertStore exAddBigReq).2 = .ok (adjMovement exAddBigReq exLowProduct) ∧
    stockOf (stockAdjust exAlertStore exAddBigReq).1 1 = some 102 ∧
    (findProduct exAlertStore 1).map Product.min_stock_level = some 10 ∧
    exAlertStore.alerts = [exOpenAlert] ∧
    exOpenAlert.is_resolved = false ∧
    (stockAdjust exAlertStore exAddBigReq).1.alerts = [exOpenAlert] :=
  ⟨rfl, rfl, rfl, rfl, rfl, rfl⟩

theorem ensureAlert_alerts_mono (s : Store) (pid : ℕ) (al cs : ℤ) (a : StockAlert)
    (h : a ∈ s.alerts) : a ∈ (ensureAlert s pid al cs).alerts := by
  unfold ensureAlert
  split
  · exact h
  · exact List.mem_append_left _ h

theorem stockAdjust_alerts_mono (s : Store) (r : AdjustmentRequest) (a : StockAlert)
    (h : a ∈ s.alerts) : a ∈ (stockAdjust s r).1.alerts := by
  unfold stockAdjust
  cases hfp : findProduct s r.product_id with
  | none => exact h
  | some p =>
    by_cases hrem : r.adjustment_type = .remove ∧ p.stock_quantity < (r.quantity : ℤ)
    · simp only [if_pos hrem]
      exact h
    · simp only [if_neg hrem]
      by_cases hmin : (adjMovement r p).new_quantity ≤ p.min_stock_level
      · simp only [if_pos hmin]
        exact ensureAlert_alerts_mono _ p.id p.min_stock_level _ a h
      · simp only [if_neg hmin]
        exact h

theorem saleOneItem_alerts (saleId : ℕ) (s : Store) (it : SaleItemRequest) :
    (saleOneItem saleId s it).alerts = s.alerts := by
  unfold saleOneItem
  split <;> rfl

theorem createSaleItems_alerts (saleId : ℕ) :
    ∀ (l : List SaleItemRequest) (s : Store),
    (createSaleItems saleId s l).alerts = s.alerts := by
  intro l
  induction l with
  | nil => intro s; rfl
  | cons it rest ih =>
    intro s
    simp only [createSaleItems]
    rw [ih, saleOneItem_alerts]

theorem createSale_alerts (s : Store) (r : SaleRequest) :
    (createSale s r).1.alerts = s.alerts := by
  unfold createSale
  cases hv : validateSale s r with
  | error e => rfl
  | ok c =>
    simp only []
    exact createSaleItems_alerts _ r.items _

/-- C6 (amended): alert resolution is NOT performed by whichever processor
restores stock above the threshold — a stock adjustment never modifies an
existing alert (it only ever appends a new open one), sale creation never
touches alerts at all, and only purchase-order receiving resolves alerts,
doing so for every affected product regardless of the resulting stock
level. -/
theorem alerts_resolved_only_by_receive (s : Store) (r : AdjustmentRequest)
    (sr : SaleRequest) (poid : ℕ) (a : StockAlert) :
    (a ∈ s.alerts → a ∈ (stockAdjust s r).1.alerts) ∧
    ((createSale s sr).1.alerts = s.alerts) ∧
    (∀ po, findPO s poid = some po → po.status ≠ .received →
      (∀ i ∈ itemsOfPO s poid, (findProduct s i.product).isSome) →
      a ∈ (receivePO s poid).1.alerts →
      (∃ i ∈ itemsOfPO s poid, i.product = a.product) → a.is_resolved = true) := by
  refine ⟨stockAdjust_alerts_mono s r a, createSale_alerts s sr, ?_⟩
  intro po hpo hst hfk ha hex
  obtain ⟨i, hi, hip⟩ := hex
  have hrec : (receivePO s poid).1 =
      { receiveItems po s (itemsOfPO s poid) with
          purchaseOrders := saveBy PurchaseOrder.id
            (receiveItems po s (itemsOfPO s poid)).purchaseOrders
            ({ po with status := POStatus.received }) } := by
    unfold receivePO
    simp only [hpo]
    rw [if_neg hst]
  rw [hrec] at ha
  exact receiveItems_allResolved po (itemsOfPO s poid) s hfk i hi a ha hip.symm

/-- Witness for C6 (amended): the open alert of the low-stock store survives
the big restocking adjustment untouched. -/
theorem alerts_resolved_only_by_receive_witness :
    exOpenAlert ∈ (stockAdjust exAlertStore exAddBigReq).1.alerts :=
  (alerts_resolved_only_by_receive exAlertStore exAddBigReq exSaleReq 0 exOpenAlert).1
    (by simp [exAlertStore])

/-! Lemmas about sale cancellation. -/

theorem restoreOneItem_findProduct_isSome (s : Store) (item : SaleItem) (pid : ℕ) :
    (findProduct (restoreOneItem s item) pid).isSome = (findProduct s pid).isSome := by
  unfold restoreOneItem
  cases hfp : findProduct s item.product with
  | none => rfl
  | some p =>
    simp only [findProduct]
    exact findBy_saveBy_isSome Product.id s.products _ pid

theorem restoreOneItem_stockOf (s : Store) (item : SaleItem) (pid : ℕ)
    (hfk : (findProduct s item.product).isSome) :
    stockOf (restoreOneItem s item) pid =
      if item.product = pid then
        (stockOf s pid).map (fun q => q + (item.quantity : ℤ))
      else stockOf s pid := by
  obtain ⟨p, hp⟩ := Option.isSome_iff_exists.mp hfk
  have hpid : p.id = item.product := findBy_key Product.id s.products item.product p hp
  unfold restoreOneItem
  simp only [hp]
  set p2 : Product := { p with stock_quantity := p.stock_quantity + (item.quantity : ℤ) }
    with hp2def
  have hkey : p2.id = p.id := rfl
  by_cases heq : item.product = pid
  · rw [if_pos heq]
    simp only [stockOf, findProduct]
    have hself := findBy_saveBy_self Product.id s.products p2
      (by rw [hkey, hpid]; exact Option.isSome_iff_exists.mpr ⟨p, hp⟩)
    rw [hkey, hpid, heq] at hself
    have hp2 : findBy Product.id s.products item.product = some p := hp
    rw [hself, ← heq, hp2]
    simp [hp2def]
  · rw [if_neg heq]
    simp only [stockOf, findProduct]
    have hother := findBy_saveBy_other Product.id s.products p2 pid
      (by rw [hkey, hpid]; exact heq)
    rw [hother]

theorem restoreItems_stockOf :
    ∀ (l : List SaleItem) (s : Store) (pid : ℕ),
    (∀ i ∈ l, (findProduct s i.product).isSome) →
    stockOf (restoreItems s l) pid = (stockOf s pid).map (fun q => q + restoredSum l pid) := by
  intro l
  induction l with
  | nil =>
    intro s pid _
    simp only [restoreItems, restoredSum, List.filter_nil, List.map_nil, List.sum_nil]
    cases stockOf s pid <;> simp
  | cons item rest ih =>
    intro s pid hfk
    simp only [restoreItems]
    have hfk1 : (findProduct s item.product).isSome := hfk item (by simp)
    have hfkrest : ∀ i ∈ rest, (findProduct (restoreOneItem s item) i.product).isSome := by
      intro i hi
      rw [restoreOneItem_findProduct_isSome]
      exact hfk i (by simp [hi])
    rw [ih (restoreOneItem s item) pid hfkrest, restoreOneItem_stockOf s item pid hfk1]
    by_cases heq : item.product = pid
    · rw [if_pos heq]
      have hsum : restoredSum (item :: rest) pid =
          (item.quantity : ℤ) + restoredSum rest pid := by
        simp [restoredSum, List.filter_cons, heq]
      rw [hsum]
      cases stockOf s pid <;> simp <;> ring
    · rw [if_neg heq]
      have hsum : restoredSum (item :: rest) pid = restoredSum rest pid := by
        simp [restoredSum, List.filter_cons, heq]
      rw [hsum]

theorem restoreOneItem_sales (s : Store) (item : SaleItem) :
    (restoreOneItem s item).sales = s.sales := by
  unfold restoreOneItem
  split <;> rfl

theorem restoreItems_sales :
    ∀ (l : List SaleItem) (s : Store), (restoreItems s l).sales = s.sales := by
  intro l
  induction l with
  | nil => intro s; rfl
  | cons item rest ih =>
    intro s
    simp only [restoreItems]
    rw [ih, restoreOneItem_sales]

/-- C7: cancelling an already-cancelled sale fails with Conflict and leaves
the store — in particular every product's stock — untouched; cancelling a
non-cancelled sale adds each sale item's quantity back to its product's
stock and sets the sale's status to cancelled. -/
theorem cancel_sale_correct (s : Store) (sid : ℕ) (sale : Sale)
    (hs : findSale s sid = some sale)
    (hfk : ∀ i ∈ itemsOfSale s sid, (findProduct s i.product).isSome) :
    (sale.status = .cancelled → cancelSale s sid = (s, .error .conflict)) ∧
    (sale.status ≠ .cancelled →
      (cancelSale s sid).2 = .ok { sale with status := SaleStatus.cancelled } ∧
      (findSale (cancelSale s sid).1 sid).map Sale.status = some SaleStatus.cancelled ∧
      (∀ pid, stockOf (cancelSale s sid).1 pid =
        (stockOf s pid).map (fun q => q + restoredSum (itemsOfSale s sid) pid))) := by
  have hsid : sale.id = sid := findBy_key Sale.id s.sales sid sale hs
  have hs2 : findBy Sale.id s.sales sid = some sale := hs
  constructor
  · intro hst
    unfold cancelSale
    simp only [hs]
    simp [hst]
  · intro hst
    have hcan : cancelSale s sid =
        ({ restoreItems s (itemsOfSale s sid) with
            sales := saveBy Sale.id (restoreItems s (itemsOfSale s sid)).sales
              ({ sale with status := SaleStatus.cancelled }) },
          .ok { sale with status := SaleStatus.cancelled }) := by
      unfold cancelSale
      simp only [hs]
      rw [if_neg hst]
    refine ⟨by rw [hcan], ?_, ?_⟩
    · rw [hcan]
      simp only [findSale]
      have hsome : (findBy Sale.id (restoreItems s (itemsOfSale s sid)).sales
          ({ sale with status := SaleStatus.cancelled } : Sale).id).isSome := by
        rw [restoreItems_sales]
        show (findBy Sale.id s.sales sale.id).isSome
        rw [hsid, hs2]
        rfl
      have hself := findBy_saveBy_self Sale.id (restoreItems s (itemsOfSale s sid)).sales
        { sale with status := SaleStatus.cancelled } hsome
      rw [hsid] at hself ⊢
      rw [hself]
      rfl
    · intro pid
      rw [hcan]
      have h3 := restoreItems_stockOf (itemsOfSale s sid) s pid hfk
      exact h3

/-- Witness for C7: cancelling the example completed sale restores the two
sold units. -/
theorem cancel_sale_correct_witness :
    (cancelSale exCancelStore 0).2 = .ok { exSaleRow with status := SaleStatus.cancelled } ∧
    (findSale (cancelSale exCancelStore 0).1 0).map Sale.status = some SaleStatus.cancelled ∧
    (∀ pid, stockOf (cancelSale exCancelStore 0).1 pid =
      (stockOf exCancelStore pid).map
        (fun q => q + restoredSum (itemsOfSale exCancelStore 0) pid)) :=
  (cancel_sale_correct exCancelStore 0 exSaleRow rfl
    (by
      intro i hi
      simp [itemsOfSale, exCancelStore, exSaleItemRow, List.filter] at hi
      subst hi
      rfl)).2 (by simp [exSaleRow])

/-! Lemmas about manual stock adjustment. -/

theorem ensureAlert_products (s : Store) (pid : ℕ) (al cs : ℤ) :
    (ensureAlert s pid al cs).products = s.products := by
  unfold ensureAlert
  split <;> rfl

theorem stockAdjust_eq (s : Store) (r : AdjustmentRequest) (p : Product)
    (hp : findProduct s r.product_id = some p)
    (hok : ¬(r.adjustment_type = .remove ∧ p.stock_quantity < (r.quantity : ℤ))) :
    stockAdjust s r =
      (if (adjMovement r p).new_quantity ≤ p.min_stock_level then
        ensureAlert
          { s with
              products := saveBy Product.id s.products
                ({ p with stock_quantity := (adjMovement r p).new_quantity })
              movements := s.movements ++ [adjMovement r p] }
          p.id p.min_stock_level (adjMovement r p).new_quantity
      else
        { s with
            products := saveBy Product.id s.products
              ({ p with stock_quantity := (adjMovement r p).new_quantity })
            movements := s.movements ++ [adjMovement r p] },
      .ok (adjMovement r p)) := by
  unfold stockAdjust
  simp only [hp]
  rw [if_neg hok]

theorem stockAdjust_stockOf (s : Store) (r : AdjustmentRequest) (p : Product)
    (hp : findProduct s r.product_id = some p)
    (hok : ¬(r.adjustment_type = .remove ∧ p.stock_quantity < (r.quantity : ℤ))) :
    stockOf (stockAdjust s r).1 r.product_id = some ((adjMovement r p).new_quantity) := by
  have hpid : p.id = r.product_id := findBy_key Product.id s.products r.product_id p hp
  have hp2 : findBy Product.id s.products r.product_id = some p := hp
  rw [stockAdjust_eq s r p hp hok]
  have hsome : (findBy Product.id s.products
      ({ p with stock_quantity := (adjMovement r p).new_quantity } : Product).id).isSome := by
    show (findBy Product.id s.products p.id).isSome
    rw [hpid, hp2]
    rfl
  have hself := findBy_saveBy_self Product.id s.products
    { p with stock_quantity := (adjMovement r p).new_quantity } hsome
  by_cases hmin : (adjMovement r p).new_quantity ≤ p.min_stock_level
  · rw [if_pos hmin]
    simp only [stockOf, findProduct, ensureAlert_products]
    rw [← hpid, hself]
    rfl
  · rw [if_neg hmin]
    simp only [stockOf, findProduct]
    rw [← hpid, hself]
    rfl

theorem countOpen_ensureAlert (s : Store) (pid : ℕ) (al cs : ℤ)
    (h : countOpen s pid ≤ 1) : countOpen (ensureAlert s pid al cs) pid = 1 := by
  have hiff : hasOpenAlert s pid = false ↔ countOpen s pid = 0 := by
    unfold hasOpenAlert countOpen
    rw [List.length_eq_zero, List.filter_eq_nil_iff]
    constructor
    · intro hall a ha
      have := List.any_eq_false.mp hall a ha
      simpa using this
    · intro hall
      rw [List.any_eq_false]
      intro a ha
      have := hall a ha
      simpa using this
  unfold ensureAlert
  by_cases hope : hasOpenAlert s pid = true
  · rw [if_pos hope]
    have hne : countOpen s pid ≠ 0 := by
      intro h0
      rw [← hiff] at h0
      rw [hope] at h0
      exact Bool.noConfusion h0
    omega
  · rw [if_neg hope]
    have h0 : countOpen s pid = 0 := hiff.mp (Bool.eq_false_iff.mpr hope)
    unfold countOpen at h0 ⊢
    simp only [List.filter_append, List.length_append, h0]
    simp [List.filter]

/-- C8: the three manual-adjustment types behave as specified — add yields
stock p+q with movement delta q, remove fails with InsufficientStock when
p is less than q and otherwise yields p−q with delta −q, set yields stock q
with delta q−p — and whenever the resulting stock is at most
min_stock_level, exactly one open StockAlert exists for the product
afterward (a new alert is appended only when none was open; the at-most-one
precondition is the data model's open-alert invariant). -/
theorem stock_adjustment_semantics (s : Store) (r : AdjustmentRequest) (p : Product)
    (hp : findProduct s r.product_id = some p) :
    (r.adjustment_type = .add →
      (stockAdjust s r).2 = .ok (adjMovement r p) ∧
      stockOf (stockAdjust s r).1 r.product_id =
        some (p.stock_quantity + (r.quantity : ℤ)) ∧
      (adjMovement r p).quantity = (r.quantity : ℤ)) ∧
    (r.adjustment_type = .remove → p.stock_quantity < (r.quantity : ℤ) →
      stockAdjust s r = (s, .error .insufficientStock)) ∧
    (r.adjustment_type = .remove → ¬p.stock_quantity < (r.quantity : ℤ) →
      (stockAdjust s r).2 = .ok (adjMovement r p) ∧
      stockOf (stockAdjust s r).1 r.product_id =
        some (p.stock_quantity - (r.quantity : ℤ)) ∧
      (adjMovement r p).quantity = -(r.quantity : ℤ)) ∧
    (r.adjustment_type = .set →
      (stockAdjust s r).2 = .ok (adjMovement r p) ∧
      stockOf (stockAdjust s r).1 r.product_id = some ((r.quantity : ℤ)) ∧
      (adjMovement r p).quantity = (r.quantity : ℤ) - p.stock_quantity) ∧
    (∀ m, (stockAdjust s r).2 = .ok m → m.new_quantity ≤ p.min_stock_level →
      countOpen s r.product_id ≤ 1 → countOpen (stockAdjust s r).1 r.product_id = 1) := by
  have hpid : p.id = r.product_id := findBy_key Product.id s.products r.product_id p hp
  refine ⟨?_, ?_, ?_, ?_, ?_⟩
  · intro htype
    have hok : ¬(r.adjustment_type = .remove ∧ p.stock_quantity < (r.quantity : ℤ)) := by
      rintro ⟨h1, -⟩
      rw [htype] at h1
      exact AdjustmentType.noConfusion h1
    refine ⟨by rw [stockAdjust_eq s r p hp hok], ?_, ?_⟩
    · rw [stockAdjust_stockOf s r p hp hok]
      simp [adjMovement, adjNewQuantity, htype]
    · simp [adjMovement, adjMovementQuantity, htype]
  · intro htype hlt
    unfold stockAdjust
    simp only [hp]
    rw [if_pos ⟨htype, hlt⟩]
  · intro htype hnlt
    have hok : ¬(r.adjustment_type = .remove ∧ p.stock_quantity < (r.quantity : ℤ)) := by
      rintro ⟨-, h2⟩
      exact hnlt h2
    refine ⟨by rw [stockAdjust_eq s r p hp hok], ?_, ?_⟩
    · rw [stockAdjust_stockOf s r p hp hok]
      simp [adjMovement, adjNewQuantity, htype]
    · simp [adjMovement, adjMovementQuantity, htype]
  · intro htype
    have hok : ¬(r.adjustment_type = .remove ∧ p.stock_quantity < (r.quantity : ℤ)) := by
      rintro ⟨h1, -⟩
      rw [htype] at h1
      exact AdjustmentType.noConfusion h1
    refine ⟨by rw [stockAdjust_eq s r p hp hok], ?_, ?_⟩
    · rw [stockAdjust_stockOf s r p hp hok]
      simp [adjMovement, adjNewQuantity, htype]
    · simp [adjMovement, adjMovementQuantity, htype]
  · intro m hok2 hmin hcnt
    by_cases hfail : r.adjustment_type = .remove ∧ p.stock_quantity < (r.quantity : ℤ)
    · unfold stockAdjust at hok2
      simp only [hp] at hok2
      rw [if_pos hfail] at hok2
      simp at hok2
    · have heq := stockAdjust_eq s r p hp hfail
      rw [heq] at hok2 ⊢
      simp only [Except.ok.injEq] at hok2
      subst hok2
      have hmin2 : (adjMovement r p).new_quantity ≤ p.min_stock_level := hmin
      simp only [if_pos hmin2]
      have hcnt2 : countOpen
          { s with
              products := saveBy Product.id s.products
                ({ p with stock_quantity := (adjMovement r p).new_quantity })
              movements := s.movements ++ [adjMovement r p] } r.product_id ≤ 1 := hcnt
      rw [hpid]
      exact countOpen_ensureAlert _ r.product_id _ _ hcnt2

/-- Witness for C8: the spec scenario — stock 5, minimum 10, remove 3 —
leaves exactly one open alert for the product. -/
theorem stock_adjustment_semantics_witness :
    countOpen (stockAdjust exFiveStore exRemoveReq).1 1 = 1 :=
  (stock_adjustment_semantics exFiveStore exRemoveReq exFiveProduct rfl).2.2.2.2
    (adjMovement exRemoveReq exFiveProduct) rfl (by decide) (by decide)

/-! Lemmas about purchase-order creation. -/

theorem createPOItems_subtotal :
    ∀ (l : List POItemRequest) (s : Store) (acc : ℚ) (poid : ℕ),
    (∀ it ∈ l, (findProduct s it.product_id).isSome) →
    (createPOItems poid s acc l).2 =
      acc + (l.map (fun it => it.unit_cost * (it.quantity : ℚ))).sum := by
  intro l
  induction l with
  | nil =>
    intro s acc poid _
    simp [createPOItems]
  | cons it rest ih =>
    intro s acc poid hfk
    cases hfp : findProduct s it.product_id with
    | none =>
      have hs := hfk it (by simp)
      rw [hfp] at hs
      simp at hs
    | some p =>
      simp only [createPOItems, hfp]
      have hih := ih
        { s with poItems := s.poItems ++
            [{ id := s.poItems.length
               purchase_order := poid
               product := p.id
               quantity_ordered := it.quantity
               quantity_received := 0
               unit_cost := it.unit_cost
               subtotal := it.unit_cost * (it.quantity : ℚ) }] }
        (acc + it.unit_cost * (it.quantity : ℚ)) poid
        (fun j hj => hfk j (by simp [hj]))
      rw [List.map_cons, List.sum_cons, hih]
      ring

theorem createPOItems_items :
    ∀ (l : List POItemRequest) (s : Store) (acc : ℚ) (poid : ℕ) (i : PurchaseOrderItem),
    i ∈ (createPOItems poid s acc l).1.poItems →
    i ∈ s.poItems ∨ i.subtotal = i.unit_cost * (i.quantity_ordered : ℚ) := by
  intro l
  induction l with
  | nil =>
    intro s acc poid i hi
    exact .inl hi
  | cons it rest ih =>
    intro s acc poid i hi
    cases hfp : findProduct s it.product_id with
    | none =>
      simp only [createPOItems, hfp] at hi
      exact ih _ _ _ i hi
    | some p =>
      simp only [createPOItems, hfp] at hi
      rcases ih _ _ _ i hi with h | h
      · rcases List.mem_append.mp h with h2 | h2
        · exact .inl h2
        · rw [List.mem_singleton] at h2
          subst h2
          exact .inr rfl
      · exact .inr h

/-- C9: creating a purchase order from a non-empty item list (existing
supplier, existing products) persists a pending order whose subtotal is the
sum of unit_cost times quantity over the items, whose tax_amount is 16
percent of the subtotal, and whose total is subtotal plus tax; every item
row it creates carries subtotal = unit_cost times quantity_ordered. -/
theorem create_po_correct (s : Store) (r : PORequest)
    (hsup : r.supplier_id ∈ s.suppliers) (hne : r.items ≠ [])
    (hfk : ∀ it ∈ r.items, (findProduct s it.product_id).isSome) :
    ∃ po, (createPO s r).2 = .ok po ∧ po.status = .pending ∧
      po.subtotal = (r.items.map (fun it => it.unit_cost * (it.quantity : ℚ))).sum ∧
      po.tax_amount = po.subtotal * (16 / 100) ∧
      po.total = po.subtotal + po.tax_amount ∧
      (∀ i ∈ (createPO s r).1.poItems,
        i ∈ s.poItems ∨ i.subtotal = i.unit_cost * (i.quantity_ordered : ℚ)) := by
  have hemp : r.items.isEmpty = false := by
    cases hl : r.items with
    | nil => exact absurd hl hne
    | cons a l => rfl
  unfold createPO
  rw [if_pos hsup, hemp]
  rw [if_neg Bool.false_ne_true]
  refine ⟨_, rfl, rfl, ?_, rfl, rfl, ?_⟩
  · show (createPOItems s.purchaseOrders.length
        { s with purchaseOrders := s.purchaseOrders ++
            [{ id := s.purchaseOrders.length
               po_number := ""
               supplier := r.supplier_id
               status := POStatus.pending
               subtotal := 0
               tax_amount := 0
               total := 0
               notes := r.notes }] } 0 r.items).2 = _
    rw [createPOItems_subtotal r.items
        { s with purchaseOrders := s.purchaseOrders ++
            [{ id := s.purchaseOrders.length
               po_number := ""
               supplier := r.supplier_id
               status := POStatus.pending
               subtotal := 0
               tax_amount := 0
               total := 0
               notes := r.notes }] } 0 s.purchaseOrders.length
        (fun it hit => hfk it hit), zero_add]
  · intro i hi
    rcases createPOItems_items r.items
        { s with purchaseOrders := s.purchaseOrders ++
            [{ id := s.purchaseOrders.length
               po_number := ""
               supplier := r.supplier_id
               status := POStatus.pending
               subtotal := 0
               tax_amount := 0
               total := 0
               notes := r.notes }] } 0 s.purchaseOrders.length i hi with h | h
    · exact .inl h
    · exact .inr h

/-- Witness for C9: one item with quantity 10 at unit cost 5 yields a
pending order with subtotal 50. -/
theorem create_po_correct_witness :
    ∃ po, (createPO exStore exPOCreateReq).2 = .ok po ∧ po.status = .pending ∧
      po.subtotal =
        (exPOCreateReq.items.map (fun it => it.unit_cost * (it.quantity : ℚ))).sum ∧
      po.tax_amount = po.subtotal * (16 / 100) ∧
      po.total = po.subtotal + po.tax_amount ∧
      (∀ i ∈ (createPO exStore exPOCreateReq).1.poItems,
        i ∈ exStore.poItems ∨ i.subtotal = i.unit_cost * (i.quantity_ordered : ℚ)) :=
  create_po_correct exStore exPOCreateReq
    (by simp [exStore, exPOCreateReq])
    (by simp [exPOCreateReq])
    (by
      intro it hit
      simp [exPOCreateReq] at hit
      subst hit
      rfl)

/-! Lemmas about the persisted sale items. -/

theorem saleOneItem_saleItems (saleId : ℕ) (s : Store) (it : SaleItemRequest)
    (i : SaleItem) (hi : i ∈ (saleOneItem saleId s it).saleItems) :
    i ∈ s.saleItems ∨
      i.subtotal = saleItemSubtotal i.unit_price i.quantity i.discount_percent i.tax_rate := by
  unfold saleOneItem at hi
  cases hfp : findProduct s it.product_id with
  | none =>
    rw [hfp] at hi
    exact .inl hi
  | some p =>
    simp only [hfp, List.mem_append, List.mem_singleton] at hi
    rcases hi with h | h
    · exact .inl h
    · subst h
      exact .inr rfl

theorem createSaleItems_saleItems (saleId : ℕ) :
    ∀ (l : List SaleItemRequest) (s : Store) (i : SaleItem),
    i ∈ (createSaleItems saleId s l).saleItems →
    i ∈ s.saleItems ∨
      i.subtotal = saleItemSubtotal i.unit_price i.quantity i.discount_percent i.tax_rate := by
  intro l
  induction l with
  | nil =>
    intro s i hi
    exact .inl hi
  | cons it rest ih =>
    intro s i hi
    simp only [createSaleItems] at hi
    rcases ih (saleOneItem saleId s it) i hi with h | h
    · exact saleOneItem_saleItems saleId s it i h
    · exact .inr h

theorem createSale_saleItems (s : Store) (r : SaleRequest) :
    ∀ i ∈ (createSale s r).1.saleItems,
    i ∈ s.saleItems ∨
      i.subtotal = saleItemSubtotal i.unit_price i.quantity i.discount_percent i.tax_rate := by
  intro i hi
  unfold createSale at hi
  cases hv : validateSale s r with
  | error e =>
    rw [hv] at hi
    exact .inl hi
  | ok c =>
    simp only [hv] at hi
    have h2 := createSaleItems_saleItems _ _ _ i hi
    exact h2

/-- C10: every SaleItem persisted by sale creation stores the discount- and
tax-inclusive subtotal of `SaleItem.save` — unit_price times quantity, minus
the discount on it, plus tax on the discounted amount — and consequently
the parent sale's subtotal field, which sums the raw pre-discount pre-tax
amounts, is in general NOT the sum of its items' subtotal fields: the
16-percent-tax example sale stores subtotal 100 while its only item stores
subtotal 116. -/
theorem sale_item_subtotal_inclusive :
    (∀ (s : Store) (r : SaleRequest), ∀ i ∈ (createSale s r).1.saleItems,
      i ∈ s.saleItems ∨
        i.subtotal =
          saleItemSubtotal i.unit_price i.quantity i.discount_percent i.tax_rate) ∧
    ((createSale exTaxStore exTaxReq).2 = .ok exTaxSale ∧
      exTaxSale.subtotal ≠
        ((createSale exTaxStore exTaxReq).1.saleItems.map SaleItem.subtotal).sum) := by
  refine ⟨fun s r => createSale_saleItems s r, ?_, ?_⟩
  · norm_num [createSale, validateSale, validateItems, findProduct, findBy, List.find?,
      exTaxStore, exTaxReq, exTaxProduct, exTaxSale, round2, roundHalfEven, Sale.mk.injEq]
  · norm_num [createSale, validateSale, validateItems, createSaleItems, saleOneItem,
      saleItemSubtotal, findProduct, findBy, List.find?, saveBy, exTaxStore, exTaxReq,
      exTaxProduct, exTaxSale, round2, roundHalfEven]

/-- Witness for C10: the persisted item of the 16-percent-tax sale satisfies
the inclusive-subtotal formula. -/
theorem sale_item_subtotal_inclusive_witness :
    exTaxItem ∈ exTaxStore.saleItems ∨
      exTaxItem.subtotal =
        saleItemSubtotal exTaxItem.unit_price exTaxItem.quantity
          exTaxItem.discount_percent exTaxItem.tax_rate :=
  sale_item_subtotal_inclusive.1 exTaxStore exTaxReq exTaxItem
    (by norm_num [createSale, validateSale, validateItems, createSaleItems, saleOneItem,
      saleItemSubtotal, findProduct, findBy, List.find?, saveBy, exTaxStore, exTaxReq,
      exTaxProduct, exTaxItem, round2, roundHalfEven, SaleItem.mk.injEq])

end POS
